import Mathlib

/-!
# Sunny / Hyperswitch payment middleware

A shallow embedding of `internal/hyperswitch/middleware.go`: the outbound translation
`convertToHyperswitchPayment`, the inbound translation `convertFromHyperswitchPayment`
with its helpers `getString` and `getInt64`, and the webhook router `WebhookHandler`.

Go values of type `interface{}` are embedded as `GoValue`; `map[string]interface{}` is an
association list that is searched from the front (`GoMap`), with a separate nil map.
A Go panic is the `Except.error` result of a translation.
-/

namespace Sunny

/-! ## Go values -/

/-- A `float64`. Every finite float64 is `mant * 2 ^ exp` for integers `mant`, `exp`
(with `|mant| < 2 ^ 53`); the embedding admits every such pair, a superset. -/
inductive Float64 where
  | finite (mant : Int) (exp : Int)
  | inf (negative : Bool)
  | nan

/-- A `map[string]T`: the nil map, or an allocated map given by its entries. -/
inductive GoMap (α : Type) where
  | nilMap
  | mk (entries : List (String × α))

/-- A value held in an `interface{}`, by dynamic type. `nil` is the nil interface (no
dynamic type); `map GoMap.nilMap` is a nil map inside a non-nil interface. -/
inductive GoValue where
  | nil
  | bool (b : Bool)
  | int (n : Int)
  | int64 (n : Int)
  | float64 (f : Float64)
  | string (s : String)
  | map (m : GoMap GoValue)
  | slice (xs : List GoValue)
  | other (typeName : String)

/-- The entries of an allocated `map[string]interface{}`. -/
abbrev Entries := List (String × GoValue)

/-- The type `map[string]interface{}`. -/
abbrev WireMap := GoMap GoValue

/-- The comma-ok lookup `val, ok := entries[key]` on an allocated map. -/
def Entries.lookup : Entries → String → Option GoValue
  | [], _ => none
  | (k, v) :: rest, key => if k = key then some v else Entries.lookup rest key

/-- The assignment `entries[key] = val` on an allocated map. -/
def Entries.set : Entries → String → GoValue → Entries
  | [], key, val => [(key, val)]
  | (k, v) :: rest, key, val =>
    if k = key then (key, val) :: rest else (k, v) :: Entries.set rest key val

/-- The comma-ok lookup `val, ok := data[key]`; reading a nil map finds nothing. -/
def GoMap.lookup : WireMap → String → Option GoValue
  | .nilMap, _ => none
  | .mk es, key => Entries.lookup es key

/-- The index expression `data[key]`: the nil interface when the key is absent. -/
def GoMap.index (data : WireMap) (key : String) : GoValue :=
  (GoMap.lookup data key).getD GoValue.nil

/-- The index expression `entries[key]` on an allocated map. -/
def Entries.index (es : Entries) (key : String) : GoValue :=
  (Entries.lookup es key).getD GoValue.nil

/-! ## Library behaviour -/

/-- A `time.Time`, as seconds and nanoseconds since the zero time plus a zone offset. -/
structure Time where
  sec : Int
  nsec : Nat
  offset : Int
  deriving DecidableEq, Repr

/-- The zero value `time.Time{}`. -/
def Time.zero : Time := ⟨0, 0, 0⟩

/-- Library behaviour that the middleware calls and that is not fixed here: the Unicode
case tables for runes outside ASCII, `time.Parse(time.RFC3339, s)` (`none` is an error),
and the result of `int64(f)` for a float64 whose truncation does not fit in int64, which
the Go specification leaves to the implementation. -/
structure GoRuntime where
  toLowerRune : Char → Char
  toUpperRune : Char → Char
  parseRFC3339 : String → Option Time
  float64ToInt64Overflow : Float64 → Int

/-- Smallest int64. -/
def minInt64 : Int := -9223372036854775808

/-- Largest int64. -/
def maxInt64 : Int := 9223372036854775807

/-- The predicate that an integer fits in int64. -/
def inInt64 (n : Int) : Prop := minInt64 ≤ n ∧ n ≤ maxInt64

instance (n : Int) : Decidable (inInt64 n) := by unfold inInt64; infer_instance

/-- A rune below `utf8.RuneSelf`. -/
def isASCIIRune (c : Char) : Bool := c.toNat < 128

/-- Every rune of the string is ASCII. -/
def isASCII (s : String) : Bool := s.data.all isASCIIRune

/-- The ASCII lower-case mapping: `A`..`Z` move up by 32, every other rune stays. -/
def asciiToLower (c : Char) : Char :=
  if 'A' ≤ c ∧ c ≤ 'Z' then Char.ofNat (c.toNat + 32) else c

/-- The ASCII upper-case mapping: `a`..`z` move down by 32, every other rune stays. -/
def asciiToUpper (c : Char) : Char :=
  if 'a' ≤ c ∧ c ≤ 'z' then Char.ofNat (c.toNat - 32) else c

/-- Lower-case mapping of one rune: the ASCII mapping on an ASCII rune, and
`unicode.ToLower` on a rune outside ASCII. -/
def toLowerRune (rt : GoRuntime) (c : Char) : Char :=
  if isASCIIRune c then asciiToLower c else rt.toLowerRune c

/-- Upper-case mapping of one rune: the ASCII mapping on an ASCII rune, and
`unicode.ToUpper` on a rune outside ASCII. -/
def toUpperRune (rt : GoRuntime) (c : Char) : Char :=
  if isASCIIRune c then asciiToUpper c else rt.toUpperRune c

/-- The function `strings.ToLower`. -/
def toLower (rt : GoRuntime) (s : String) : String := ⟨s.data.map (toLowerRune rt)⟩

/-- The function `strings.ToUpper`. -/
def toUpper (rt : GoRuntime) (s : String) : String := ⟨s.data.map (toUpperRune rt)⟩

/-- The fraction-discarding part of `int64(f)`: the value of a finite float truncated
toward zero, as an unbounded integer. -/
def Float64.truncate : Float64 → Option Int
  | .finite mant exp =>
    if 0 ≤ exp then some (mant * 2 ^ exp.toNat) else some (Int.tdiv mant (2 ^ (-exp).toNat))
  | .inf _ => none
  | .nan => none

/-- The conversion `int64(f)` of a float64. -/
def float64ToInt64 (rt : GoRuntime) (f : Float64) : Int :=
  match f.truncate with
  | some t => if inInt64 t then t else rt.float64ToInt64Overflow f
  | none => rt.float64ToInt64Overflow f

/-- The digit loop of `strconv.ParseUint(s, 10, 64)` with accumulator `n`; `none` stands
for a non-nil error (syntax or range). -/
def parseUintLoop : List Char → Nat → Option Nat
  | [], n => some n
  | c :: cs, n =>
    if '0' ≤ c ∧ c ≤ '9' then
      let d := c.toNat - '0'.toNat
      -- cutoff is maxUint64/10 + 1: n*10 would overflow
      if n ≥ 18446744073709551615 / 10 + 1 then none
      else
        let n10 := n * 10
        let n1 := (n10 + d) % 2 ^ 64
        if n1 < n10 ∨ n1 > 18446744073709551615 then none
        else parseUintLoop cs n1
    else none

/-- The call `strconv.ParseUint(s, 10, 64)` on the runes of `s`. -/
def parseUint (s : List Char) : Option Nat :=
  match s with
  | [] => none
  | _ => parseUintLoop s 0

/-- The sign handling and range check of `strconv.ParseInt` after the sign is split off. -/
def parseIntSigned (neg : Bool) (digits : List Char) : Option Int :=
  match parseUint digits with
  | none => none
  | some un =>
    if neg = false ∧ un ≥ 2 ^ 63 then none
    else if neg = true ∧ un > 2 ^ 63 then none
    else if neg then some (-(un : Int)) else some (un : Int)

/-- The call `strconv.ParseInt(s, 10, 64)`; `none` stands for `err != nil`. -/
def parseInt (s : String) : Option Int :=
  match s.data with
  | [] => none
  | '+' :: rest => parseIntSigned false rest
  | '-' :: rest => parseIntSigned true rest
  | cs => parseIntSigned false cs

/-! ## Utility functions of the middleware -/

/-- The function `getString(data, key)`. -/
def getString (data : WireMap) (key : String) : String :=
  match GoMap.lookup data key with
  | some (.string str) => str
  | _ => ""

/-- The function `getInt64(data, key)`. -/
def getInt64 (rt : GoRuntime) (data : WireMap) (key : String) : Int :=
  match GoMap.lookup data key with
  | some (.int64 v) => v
  | some (.int v) => v
  | some (.float64 v) => float64ToInt64 rt v
  | some (.string v) =>
    match parseInt v with
    | some i => i
    | none => 0
  | _ => 0

/-! ## Domain model -/

/-- The fields of `Config` that the middleware reads (`pm.config.WebhookURL`,
`pm.config.WebhookSecret`); the struct literal of the integration test gives them as
strings. -/
structure Config where
  WebhookURL : String
  WebhookSecret : String

/-- The anonymous address struct of `CustomerInfo`. -/
structure AddressInfo where
  Line1 : String
  Line2 : String
  City : String
  State : String
  Zip : String
  Country : String

/-- The struct `CustomerInfo`; `Address` is a pointer, `none` when nil. -/
structure CustomerInfo where
  Name : String
  Email : String
  Phone : String
  Address : Option AddressInfo

/-- The struct `PaymentRequest`; `Metadata` may be the nil map and `CustomerInfo` is a
pointer, `none` when nil. -/
structure PaymentRequest where
  UserID : String
  Amount : Int
  Currency : String
  Method : String
  Description : String
  OrderID : String
  ReturnURL : String
  Metadata : WireMap
  CustomerInfo : Option CustomerInfo

/-- The struct `NextAction`. -/
structure NextAction where
  ActionType : String
  RedirectToURL : String
  Data : GoValue

/-- The struct `PaymentResponse`. -/
structure PaymentResponse where
  PaymentID : String
  Status : String
  Amount : Int
  Currency : String
  Method : String
  UserID : String
  OrderID : String
  Description : String
  ClientSecret : String
  NextAction : Option NextAction
  ErrorMessage : String
  ErrorCode : String
  CreatedAt : Time
  UpdatedAt : Time
  Metadata : WireMap

/-! ## Outbound translation -/

/-- The customer object built when `req.CustomerInfo != nil`. -/
def customerObject (userID : String) (ci : CustomerInfo) : Entries :=
  let customer : Entries := []
  let customer := if ci.Name ≠ "" then Entries.set customer "name" (.string ci.Name) else customer
  let customer := if ci.Email ≠ "" then Entries.set customer "email" (.string ci.Email) else customer
  let customer := if ci.Phone ≠ "" then Entries.set customer "phone" (.string ci.Phone) else customer
  Entries.set customer "id" (.string userID)

/-- The billing object built when `req.CustomerInfo.Address != nil`. -/
def billingObject (a : AddressInfo) : Entries :=
  [("address", .map (.mk [
      ("line1", .string a.Line1),
      ("line2", .string a.Line2),
      ("city", .string a.City),
      ("state", .string a.State),
      ("zip", .string a.Zip),
      ("country", .string a.Country)]))]

/-- The wire request before the correlation block: the map literal, the customer and
billing objects, the return URL and the webhook URL. -/
def wireRequestBase (rt : GoRuntime) (cfg : Config) (req : PaymentRequest) : Entries :=
  let hyperswitchReq : Entries := [
    ("amount", .int64 req.Amount),
    ("currency", .string (toLower rt req.Currency)),
    ("payment_method", .string req.Method),
    ("description", .string req.Description),
    ("metadata", .map req.Metadata),
    ("capture", .string "automatic"),
    ("confirm", .string "automatic")]
  let hyperswitchReq :=
    match req.CustomerInfo with
    | some ci =>
      let withCustomer := Entries.set hyperswitchReq "customer" (.map (.mk (customerObject req.UserID ci)))
      match ci.Address with
      | some a => Entries.set withCustomer "billing" (.map (.mk (billingObject a)))
      | none => withCustomer
    | none => Entries.set hyperswitchReq "customer" (.map (.mk [("id", .string req.UserID)]))
  let hyperswitchReq :=
    if req.ReturnURL ≠ "" then Entries.set hyperswitchReq "return_url" (.string req.ReturnURL)
    else hyperswitchReq
  if cfg.WebhookURL ≠ "" then Entries.set hyperswitchReq "webhook_url" (.string cfg.WebhookURL)
  else hyperswitchReq

/-- The comparison `v == nil` of an interface value: true only for the nil interface,
false for a nil map stored in the interface. -/
def GoValue.isNilInterface : GoValue → Bool
  | .nil => true
  | _ => false

/-- The correlation block of `convertToHyperswitchPayment`, run when `req.OrderID != ""`.
The type assertion panics on a value that is not a map, and the assignment panics on
the nil map. An allocated map is shared with the wire request, so the two assignments
show through `hyperswitchReq["metadata"]`. -/
def addCorrelation (hyperswitchReq : Entries) (orderID userID : String) :
    Except String Entries :=
  let hyperswitchReq :=
    if (Entries.index hyperswitchReq "metadata").isNilInterface
    then Entries.set hyperswitchReq "metadata" (.map (.mk []))
    else hyperswitchReq
  match Entries.index hyperswitchReq "metadata" with
  | .map (.mk metadata) =>
    let metadata := Entries.set metadata "sunny_order_id" (.string orderID)
    let metadata := Entries.set metadata "sunny_user_id" (.string userID)
    .ok (Entries.set hyperswitchReq "metadata" (.map (.mk metadata)))
  | .map .nilMap => .error "assignment to entry in nil map"
  | _ => .error "interface conversion: interface \x7b\x7d is not map[string]interface \x7b\x7d"

/-- The method `convertToHyperswitchPayment`; `Except.error` is a panic. -/
def convertToHyperswitchPayment (rt : GoRuntime) (cfg : Config) (req : PaymentRequest) :
    Except String Entries :=
  let hyperswitchReq := wireRequestBase rt cfg req
  if req.OrderID ≠ "" then addCorrelation hyperswitchReq req.OrderID req.UserID
  else .ok hyperswitchReq

/-! ## Inbound translation -/

/-- The zero value `PaymentResponse{}` with the seven fields of the composite literal. -/
def initialResponse (rt : GoRuntime) (hyperswitchResp : WireMap) (userID orderID : String) :
    PaymentResponse :=
  { PaymentID := getString hyperswitchResp "payment_id"
    Status := getString hyperswitchResp "status"
    Amount := getInt64 rt hyperswitchResp "amount"
    Currency := toUpper rt (getString hyperswitchResp "currency")
    Method := getString hyperswitchResp "payment_method"
    UserID := userID
    OrderID := orderID
    Description := ""
    ClientSecret := ""
    NextAction := none
    ErrorMessage := ""
    ErrorCode := ""
    CreatedAt := Time.zero
    UpdatedAt := Time.zero
    Metadata := .nilMap }

/-- One timestamp block: `field` is replaced by the parsed instant when the string under
`key` is non-empty and `time.Parse(time.RFC3339, ...)` returns no error. -/
def parseTimestamp (rt : GoRuntime) (data : WireMap) (key : String) (field : Time) : Time :=
  let str := getString data key
  if str ≠ "" then
    match rt.parseRFC3339 str with
    | some t => t
    | none => field
  else field

/-- The metadata block: when `hyperswitchResp["metadata"]` is a map it becomes the
response metadata, and a string under a reserved key fills the id the caller left empty. -/
def extractMetadata (hyperswitchResp : WireMap) (userID orderID : String)
    (resp : PaymentResponse) : PaymentResponse :=
  match GoMap.index hyperswitchResp "metadata" with
  | .map metadata =>
    let resp := { resp with Metadata := metadata }
    let resp :=
      match GoMap.index metadata "sunny_user_id" with
      | .string sunnyUserID => if userID = "" then { resp with UserID := sunnyUserID } else resp
      | _ => resp
    match GoMap.index metadata "sunny_order_id" with
    | .string sunnyOrderID => if orderID = "" then { resp with OrderID := sunnyOrderID } else resp
    | _ => resp
  | _ => resp

/-- The next-action block. -/
def extractNextAction (hyperswitchResp : WireMap) (resp : PaymentResponse) : PaymentResponse :=
  match GoMap.index hyperswitchResp "next_action" with
  | .map nextActionData =>
    let nextAction : NextAction :=
      { ActionType := getString nextActionData "type"
        RedirectToURL := getString nextActionData "redirect_to_url"
        Data := GoMap.index nextActionData "data" }
    { resp with NextAction := some nextAction }
  | _ => resp

/-- The method `convertFromHyperswitchPayment`. -/
def convertFromHyperswitchPayment (rt : GoRuntime) (hyperswitchResp : WireMap)
    (userID orderID : String) : PaymentResponse :=
  let resp := initialResponse rt hyperswitchResp userID orderID
  let resp := { resp with CreatedAt := parseTimestamp rt hyperswitchResp "created" resp.CreatedAt }
  let resp :=
    { resp with UpdatedAt := parseTimestamp rt hyperswitchResp "last_modified" resp.UpdatedAt }
  let resp := extractMetadata hyperswitchResp userID orderID resp
  let resp := { resp with ClientSecret := getString hyperswitchResp "client_secret" }
  let resp := extractNextAction hyperswitchResp resp
  let resp := { resp with ErrorMessage := getString hyperswitchResp "error_message" }
  let resp := { resp with ErrorCode := getString hyperswitchResp "error_code" }
  { resp with Description := getString hyperswitchResp "description" }

/-! ## Webhook router -/

/-- A logrus level used by the router and its handlers. -/
inductive LogLevel where
  | info
  | warn
  | error
  deriving DecidableEq, Repr

/-- One log record: level, message and the string-valued fields attached to it. -/
structure LogEntry where
  level : LogLevel
  message : String
  fields : List (String × String)
  deriving DecidableEq, Repr

/-- The branch taken by the `switch eventType`: one of the five event handlers, or the
default branch that only logs the unknown event type. -/
inductive WebhookBranch where
  | PaymentSucceeded
  | PaymentFailed
  | RefundSucceeded
  | RefundFailed
  | DisputeOpened
  | Unknown
  deriving DecidableEq, Repr

/-- A webhook delivery as the handler sees it: the value of
`c.GetHeader("X-Hyperswitch-Signature")` (empty when the header is absent), the raw
body, and the result of `c.ShouldBindJSON(&webhookData)` (`none` when it returns an
error). -/
structure WebhookRequest where
  signature : String
  rawBody : String
  bound : Option WireMap

/-- What a run of the handler leaves behind: the status and body written with `c.JSON`,
the branches of the switch that ran, and the log records in order. -/
structure WebhookResult where
  status : Nat
  body : List (String × String)
  dispatched : List WebhookBranch
  logs : List LogEntry
  deriving DecidableEq, Repr

/-- The method `verifyWebhookSignature`: the body is the placeholder `return true`. -/
def verifyWebhookSignature (_req : WebhookRequest) (_signature : String) : Bool := true

/-- The method `handlePaymentSucceeded`. -/
def handlePaymentSucceeded (data : WireMap) : List LogEntry :=
  [⟨.info, "Payment succeeded webhook received", [("payment_id", getString data "payment_id")]⟩]

/-- The method `handlePaymentFailed`. -/
def handlePaymentFailed (data : WireMap) : List LogEntry :=
  [⟨.warn, "Payment failed webhook received",
    [("payment_id", getString data "payment_id"),
     ("error_code", getString data "error_code"),
     ("error_message", getString data "error_message")]⟩]

/-- The method `handleRefundSucceeded`. -/
def handleRefundSucceeded (data : WireMap) : List LogEntry :=
  [⟨.info, "Refund succeeded webhook received",
    [("refund_id", getString data "refund_id"), ("payment_id", getString data "payment_id")]⟩]

/-- The method `handleRefundFailed`. -/
def handleRefundFailed (data : WireMap) : List LogEntry :=
  [⟨.warn, "Refund failed webhook received",
    [("refund_id", getString data "refund_id"), ("payment_id", getString data "payment_id")]⟩]

/-- The method `handleDisputeOpened`. -/
def handleDisputeOpened (data : WireMap) : List LogEntry :=
  [⟨.warn, "Dispute opened webhook received",
    [("dispute_id", getString data "dispute_id"), ("payment_id", getString data "payment_id")]⟩]

/-- The `switch eventType` of the handler: the branch taken and the records it logs. -/
def dispatch (eventType : String) (webhookData : WireMap) : WebhookBranch × List LogEntry :=
  if eventType = "payment_succeeded" then (.PaymentSucceeded, handlePaymentSucceeded webhookData)
  else if eventType = "payment_failed" then (.PaymentFailed, handlePaymentFailed webhookData)
  else if eventType = "refund_succeeded" then (.RefundSucceeded, handleRefundSucceeded webhookData)
  else if eventType = "refund_failed" then (.RefundFailed, handleRefundFailed webhookData)
  else if eventType = "dispute_opened" then (.DisputeOpened, handleDisputeOpened webhookData)
  else (.Unknown, [⟨.warn, "Unknown webhook event type", [("event_type", eventType)]⟩])

/-- The steps of `WebhookHandler` after the signature check: bind the body, read
`event_type`, log, dispatch and acknowledge. The `data` field of the processing record,
the whole payload, is left out of the record. -/
def processWebhook (req : WebhookRequest) : WebhookResult :=
  match req.bound with
  | none =>
    { status := 400, body := [("error", "Invalid payload")], dispatched := [],
      logs := [⟨.error, "Invalid webhook payload", []⟩] }
  | some webhookData =>
    match GoMap.index webhookData "event_type" with
    | .string eventType =>
      let (branch, handlerLogs) := dispatch eventType webhookData
      { status := 200, body := [("status", "received")], dispatched := [branch],
        logs := ⟨.info, "Processing Hyperswitch webhook", [("event_type", eventType)]⟩
                  :: handlerLogs }
    | _ =>
      { status := 400, body := [("error", "Missing event_type")], dispatched := [],
        logs := [⟨.error, "Missing event_type in webhook", []⟩] }

/-- The handler returned by `WebhookHandler`. -/
def WebhookHandler (cfg : Config) (req : WebhookRequest) : WebhookResult :=
  if cfg.WebhookSecret ≠ "" ∧ ¬ verifyWebhookSignature req req.signature = true then
    { status := 401, body := [("error", "Invalid signature")], dispatched := [],
      logs := [⟨.warn, "Invalid webhook signature", []⟩] }
  else processWebhook req

/-- The middleware keeps nothing between deliveries: the handler reads `pm.config` and
writes no field of the middleware. A run over several deliveries is therefore the
handler applied to each in turn. -/
def handleDeliveries (cfg : Config) (deliveries : List WebhookRequest) : List WebhookResult :=
  deliveries.map (WebhookHandler cfg)

/-- Every branch dispatched over a run of deliveries, in order. -/
def dispatchedOver (cfg : Config) (deliveries : List WebhookRequest) : List WebhookBranch :=
  (handleDeliveries cfg deliveries).flatMap (fun r => r.dispatched)

/-! ## Refund translation and the get-by-id handlers -/

/-- The struct `RefundResponse`. -/
structure RefundResponse where
  RefundID : String
  PaymentID : String
  Amount : Int
  Currency : String
  Status : String
  Reason : String
  CreatedAt : Time
  UpdatedAt : Time

/-- The method `convertFromHyperswitchRefund`. -/
def convertFromHyperswitchRefund (rt : GoRuntime) (hyperswitchResp : WireMap) : RefundResponse :=
  let resp : RefundResponse :=
    { RefundID := getString hyperswitchResp "refund_id"
      PaymentID := getString hyperswitchResp "payment_id"
      Amount := getInt64 rt hyperswitchResp "amount"
      Currency := toUpper rt (getString hyperswitchResp "currency")
      Status := getString hyperswitchResp "status"
      Reason := getString hyperswitchResp "reason"
      CreatedAt := Time.zero
      UpdatedAt := Time.zero }
  let resp := { resp with CreatedAt := parseTimestamp rt hyperswitchResp "created" resp.CreatedAt }
  { resp with UpdatedAt := parseTimestamp rt hyperswitchResp "last_modified" resp.UpdatedAt }

/-- Whether `s` begins with `sub`, rune by rune. -/
def startsWith : List Char → List Char → Bool
  | _, [] => true
  | [], _ :: _ => false
  | c :: cs, p :: ps => c = p && startsWith cs ps

/-- Whether `sub` occurs in `s` at some position. -/
def occursIn : List Char → List Char → Bool
  | [], sub => startsWith [] sub
  | c :: cs, sub => startsWith (c :: cs) sub || occursIn cs sub

/-- The function `strings.Contains(s, substr)`. -/
def stringsContains (s substr : String) : Bool := occursIn s.data substr.data

/-- The calls of the processor client that the get-by-id handlers make. Each returns the
wire map of the entity, or `Except.error` with the text of `err.Error()`. -/
structure Client where
  GetPayment : String → Except String WireMap
  GetRefund : String → Except String WireMap
  GetCustomer : String → Except String WireMap

/-- What a handler passes to `c.JSON` as the body. -/
inductive HandlerBody where
  | fields (h : List (String × String))
  | payment (p : PaymentResponse)
  | refund (r : RefundResponse)
  | wire (m : WireMap)

/-- The status and body a handler writes with `c.JSON`. -/
structure HandlerResponse where
  status : Nat
  body : HandlerBody

/-- The handler returned by `GetPaymentHandler`, on the path parameter `payment_id`. -/
def GetPaymentHandler (rt : GoRuntime) (client : Client) (paymentID : String) :
    HandlerResponse :=
  if paymentID = "" then ⟨400, .fields [("error", "Payment ID is required")]⟩
  else
    match client.GetPayment paymentID with
    | .error err =>
      if stringsContains err "404" || stringsContains err "not found" then
        ⟨404, .fields [("error", "Payment not found")]⟩
      else ⟨500, .fields [("error", "Failed to retrieve payment"), ("details", err)]⟩
    | .ok hyperswitchResp => ⟨200, .payment (convertFromHyperswitchPayment rt hyperswitchResp "" "")⟩

/-- The handler returned by `GetRefundHandler`, on the path parameter `refund_id`. -/
def GetRefundHandler (rt : GoRuntime) (client : Client) (refundID : String) :
    HandlerResponse :=
  if refundID = "" then ⟨400, .fields [("error", "Refund ID is required")]⟩
  else
    match client.GetRefund refundID with
    | .error err => ⟨500, .fields [("error", "Failed to retrieve refund"), ("details", err)]⟩
    | .ok refund => ⟨200, .refund (convertFromHyperswitchRefund rt refund)⟩

/-- The handler returned by `GetCustomerHandler`, on the path parameter `customer_id`. -/
def GetCustomerHandler (client : Client) (customerID : String) : HandlerResponse :=
  if customerID = "" then ⟨400, .fields [("error", "Customer ID is required")]⟩
  else
    match client.GetCustomer customerID with
    | .error err => ⟨500, .fields [("error", "Failed to retrieve customer"), ("details", err)]⟩
    | .ok customer => ⟨200, .wire customer⟩

/-! ## The service client -/

/-- What the HTTP library hands back for a request that completed: `resp.StatusCode()`,
`resp.Status()` and the value behind `resp.Result()`. -/
structure RestyResponse (α : Type) where
  StatusCode : Int
  Status : String
  Result : α

/-- The body shared by the seven operations of `HyperswitchClient`, after the request is
sent: a transport error is wrapped with the operation's own message, a status of 400 or
above is an API error, and anything else returns the result. -/
def clientOperation {α : Type} (failure : String)
    (outcome : Except String (RestyResponse α)) : Except String α :=
  match outcome with
  | .error err => .error (failure ++ ": " ++ err)
  | .ok resp =>
    if resp.StatusCode ≥ 400 then .error ("hyperswitch API error: " ++ resp.Status)
    else .ok resp.Result

/-- The method `HyperswitchClient.CreatePayment`. -/
def HyperswitchClient.CreatePayment {α : Type} :=
  @clientOperation α "failed to create payment"

/-- The method `HyperswitchClient.GetPayment`. -/
def HyperswitchClient.GetPayment {α : Type} :=
  @clientOperation α "failed to retrieve payment"

/-- The method `HyperswitchClient.ConfirmPayment`. -/
def HyperswitchClient.ConfirmPayment {α : Type} :=
  @clientOperation α "failed to confirm payment"

/-- The method `HyperswitchClient.CreateRefund`. -/
def HyperswitchClient.CreateRefund {α : Type} :=
  @clientOperation α "failed to create refund"

/-- The method `HyperswitchClient.GetRefund`. -/
def HyperswitchClient.GetRefund {α : Type} :=
  @clientOperation α "failed to retrieve refund"

/-- The method `HyperswitchClient.CreateCustomer`. -/
def HyperswitchClient.CreateCustomer {α : Type} :=
  @clientOperation α "failed to create customer"

/-- The method `HyperswitchClient.GetCustomer`. -/
def HyperswitchClient.GetCustomer {α : Type} :=
  @clientOperation α "failed to retrieve customer"

/-- The seven operations of the claim, for one result type. -/
def clientOperations (α : Type) : List (Except String (RestyResponse α) → Except String α) :=
  [HyperswitchClient.CreatePayment, HyperswitchClient.GetPayment,
   HyperswitchClient.ConfirmPayment, HyperswitchClient.CreateRefund,
   HyperswitchClient.GetRefund, HyperswitchClient.CreateCustomer,
   HyperswitchClient.GetCustomer]

/-! ## Refund creation -/

/-- The struct `RefundRequest`; `Metadata` may be the nil map. -/
structure RefundRequest where
  PaymentID : String
  Amount : Int
  Reason : String
  Metadata : WireMap

/-- The block of `CreateRefundHandler` that builds the wire refund request: the map
literal, and the `amount` entry when `req.Amount > 0`. -/
def refundWireRequest (req : RefundRequest) : Entries :=
  let hyperswitchRefund : Entries := [
    ("payment_id", .string req.PaymentID),
    ("reason", .string req.Reason),
    ("metadata", .map req.Metadata)]
  if req.Amount > 0 then Entries.set hyperswitchRefund "amount" (.int64 req.Amount)
  else hyperswitchRefund

/-- The handler returned by `CreateRefundHandler`. `bound` is the result of
`c.ShouldBindJSON(&req)` and `createRefund` is the client call, which receives the wire
refund request. -/
def CreateRefundHandler (rt : GoRuntime) (createRefund : Entries → Except String WireMap)
    (bound : Except String RefundRequest) : HandlerResponse :=
  match bound with
  | .error err => ⟨400, .fields [("error", "Invalid refund request"), ("details", err)]⟩
  | .ok req =>
    match createRefund (refundWireRequest req) with
    | .error err => ⟨500, .fields [("error", "Refund creation failed"), ("details", err)]⟩
    | .ok hyperswitchResp => ⟨201, .refund (convertFromHyperswitchRefund rt hyperswitchResp)⟩

/-! ## The payment bridge -/

/-- The number of binary digits of `n`, by halving at most `fuel` times. -/
def bitLengthAux : Nat → Nat → Nat
  | 0, _ => 0
  | fuel + 1, n => if n = 0 then 0 else bitLengthAux fuel (n / 2) + 1

/-- The number of binary digits of `n`; zero for zero. -/
def bitLength (n : Nat) : Nat := bitLengthAux n n

/-- The float64 nearest to `±n * 2 ^ e`, ties to the even mantissa: the mantissa is cut
to 53 binary digits, or to fewer when the exponent would fall below -1074, and a result
of `2 ^ 1024` or more is infinite. The sign of a zero result is not kept. -/
def roundToFloat64 (negative : Bool) (n : Nat) (e : Int) : Float64 :=
  let sign : Int := if negative then -1 else 1
  let shift : Int := max ((bitLength n : Int) - 53) (-1074 - e)
  if shift ≤ 0 then
    if n = 0 then .finite 0 0
    else if (bitLength n : Int) + e > 1024 then .inf negative
    else .finite (sign * n) e
  else
    let k := shift.toNat
    let q := n / 2 ^ k
    let r := n % 2 ^ k
    let half := 2 ^ (k - 1)
    let q := if r > half ∨ (r = half ∧ q % 2 = 1) then q + 1 else q
    if (bitLength q : Int) + (e + shift) > 1024 then .inf negative
    else .finite (sign * q) (e + shift)

/-- The product `a * b` of two float64 values: the exact product rounded to the nearest
float64. -/
def Float64.mul : Float64 → Float64 → Float64
  | .nan, _ => .nan
  | _, .nan => .nan
  | .inf s, .inf t => .inf (s != t)
  | .inf s, .finite m _ => if m = 0 then .nan else .inf (s != decide (m < 0))
  | .finite m _, .inf t => if m = 0 then .nan else .inf (decide (m < 0) != t)
  | .finite m1 e1, .finite m2 e2 =>
    roundToFloat64 (decide (m1 < 0) != decide (m2 < 0)) (m1.natAbs * m2.natAbs) (e1 + e2)

/-- The struct `sunnyPayment` that the `/payments/process` bridge binds; `Amount` is a
float64 in major currency units. -/
structure SunnyPayment where
  UserID : String
  Amount : Float64
  Currency : String
  Method : String
  Description : String
  OrderID : String

/-- The line `amountInCents := int64(sunnyPayment.Amount * 100)`. -/
def amountInCents (rt : GoRuntime) (sunnyPayment : SunnyPayment) : Int :=
  float64ToInt64 rt (Float64.mul sunnyPayment.Amount (.finite 100 0))

/-- The handler that `setupPaymentBridgeRoutes` registers for `POST /payments/process`;
`bound` is `none` when `c.ShouldBindJSON(&sunnyPayment)` returns an error. -/
def setupPaymentBridgeRoutes (rt : GoRuntime) (bound : Option SunnyPayment) :
    HandlerResponse :=
  match bound with
  | none => ⟨400, .fields [("error", "Invalid payment data")]⟩
  | some sunnyPayment =>
    let hyperswitchPayment : Entries := [
      ("user_id", .string sunnyPayment.UserID),
      ("amount", .int64 (amountInCents rt sunnyPayment)),
      ("currency", .string sunnyPayment.Currency),
      ("payment_method", .string sunnyPayment.Method),
      ("description", .string sunnyPayment.Description),
      ("order_id", .string sunnyPayment.OrderID)]
    ⟨200, .wire (.mk [
      ("message", .string "Payment forwarded to Hyperswitch"),
      ("data", .map (.mk hyperswitchPayment))])⟩

/-! ## Reference definitions and example inputs -/

/-- A runtime for evaluating examples whose strings are ASCII: runes outside ASCII are
left alone, `2024-01-01T00:00:00Z` is the one timestamp that parses, and an out-of-range
float converts to the smallest int64, as on amd64. -/
def exampleRuntime : GoRuntime :=
  { toLowerRune := fun c => c
    toUpperRune := fun c => c
    parseRFC3339 := fun s => if s = "2024-01-01T00:00:00Z" then some ⟨63839664000, 0, 0⟩ else none
    float64ToInt64Overflow := fun _ => minInt64 }

/-- The configuration `testConfig` of the integration test. -/
def testConfig : Config :=
  { WebhookURL := "http://localhost:8081/webhooks/hyperswitch"
    WebhookSecret := "test_webhook_secret" }

/-- The request bound from the body of `testCreatePayment`: an order id, customer info
without address, and no `metadata` key, so `Metadata` is the nil map. -/
def testCreatePaymentRequest : PaymentRequest :=
  { UserID := "test_user_123", Amount := 1000, Currency := "USD", Method := "card"
    Description := "Test payment for Sunny integration", OrderID := "order_test_123"
    ReturnURL := "", Metadata := .nilMap
    CustomerInfo := some
      { Name := "John Doe", Email := "john.doe@example.com", Phone := "+1234567890"
        Address := none } }

/-- The scenario input of the specification: user `u1`, amount 1000, currency `usd`,
method `card`, order `o1`, nothing else. -/
def scenarioRequest : PaymentRequest :=
  { UserID := "u1", Amount := 1000, Currency := "usd", Method := "card", Description := ""
    OrderID := "o1", ReturnURL := "", Metadata := .nilMap, CustomerInfo := none }

/-- The scenario input without its order id. -/
def noOrderRequest : PaymentRequest := { scenarioRequest with OrderID := "" }

/-- The scenario input with caller metadata that already uses both reserved keys. -/
def collisionRequest : PaymentRequest :=
  { scenarioRequest with
    Metadata := .mk [("sunny_order_id", .string "callers-order"),
                     ("sunny_user_id", .string "callers-user")] }

/-- The wire response `resp` echoes the amount, currency and metadata of the wire
request `w`. -/
def echoes (w : Entries) (resp : WireMap) : Prop :=
  GoMap.lookup resp "amount" = Entries.lookup w "amount" ∧
  GoMap.lookup resp "currency" = Entries.lookup w "currency" ∧
  GoMap.lookup resp "metadata" = Entries.lookup w "metadata"

/-- The round trip as claimed for one request: the outbound translation returns a wire
request, and every response that echoes it translates back to the request's amount,
upper-cased currency, user id and order id. -/
def RoundTrip (rt : GoRuntime) (cfg : Config) (r : PaymentRequest) : Prop :=
  ∃ w, convertToHyperswitchPayment rt cfg r = .ok w ∧
    ∀ resp, echoes w resp →
      (convertFromHyperswitchPayment rt resp "" "").Amount = r.Amount ∧
      (convertFromHyperswitchPayment rt resp "" "").Currency = toUpper rt r.Currency ∧
      (convertFromHyperswitchPayment rt resp "" "").UserID = r.UserID ∧
      (convertFromHyperswitchPayment rt resp "" "").OrderID = r.OrderID

/-- The metadata map of a wire request, when it has one. -/
def wireMetadata (w : Entries) : Option WireMap :=
  match Entries.index w "metadata" with
  | .map md => some md
  | _ => none

/-- The collision rule as claimed for one request: whenever the translation returns a
wire request, each value the caller stored under a reserved key is still the value under
that key in the wire metadata. -/
def KeepsCallerCorrelation (rt : GoRuntime) (cfg : Config) (r : PaymentRequest) : Prop :=
  ∀ w key v, convertToHyperswitchPayment rt cfg r = .ok w →
    key = "sunny_order_id" ∨ key = "sunny_user_id" →
    GoMap.lookup r.Metadata key = some v →
    ∃ md, wireMetadata w = some md ∧ GoMap.lookup md key = some v

/-- The float holds exactly the integer `n`. -/
def Float64.holdsInteger (f : Float64) (n : Int) : Prop :=
  match f with
  | .finite mant exp => if 0 ≤ exp then mant * 2 ^ exp.toNat = n else mant = n * 2 ^ (-exp).toNat
  | .inf _ => False
  | .nan => False

/-- The decimal digit character of `d < 10`. -/
def digitChar (d : Nat) : Char := Char.ofNat (48 + d)

/-- The base-10 digits of a natural number, most significant first; `0` for zero. -/
def natDigits (n : Nat) : List Char :=
  if n = 0 then ['0'] else ((Nat.digits 10 n).reverse).map digitChar

/-- The base-10 string of an integer: a minus sign for a negative number, then the
digits of its absolute value. -/
def formatInt (n : Int) : String :=
  if n < 0 then ⟨'-' :: natDigits n.natAbs⟩ else ⟨natDigits n.natAbs⟩

/-- The wire value `v` is one of the three representations of the integer `n`: a native
integer (`int64` or `int`), a float holding exactly `n`, or the base-10 string of `n`. -/
def representsAmount (v : GoValue) (n : Int) : Prop :=
  v = .int64 n ∨ v = .int n ∨ (∃ f, v = .float64 f ∧ f.holdsInteger n) ∨ v = .string (formatInt n)

/-- A decimal digit. -/
def isDecimalDigit (c : Char) : Bool := decide ('0' ≤ c ∧ c ≤ '9')

/-- One step of reading a decimal number: the digit `c` appended to `acc`. -/
def digitStep (acc : Nat) (c : Char) : Nat := acc * 10 + (c.toNat - 48)

/-- The number written by a list of decimal digits. -/
def digitsValue (cs : List Char) : Nat := cs.foldl digitStep 0

/-- A digit string: at least one rune, all of them decimal digits. -/
def isDigitString (cs : List Char) : Bool := !cs.isEmpty && cs.all isDecimalDigit

/-- The integer written by a string that is a base-10 integer (an optional sign and then
one or more decimal digits); `none` for every other string. No range limit. -/
def decimalInteger (s : String) : Option Int :=
  match s.data with
  | '-' :: ds => if isDigitString ds then some (-(digitsValue ds : Int)) else none
  | '+' :: ds => if isDigitString ds then some (digitsValue ds : Int) else none
  | ds => if isDigitString ds then some (digitsValue ds : Int) else none

/-- The integer a signed digit string denotes, cut to int64. -/
def signedInInt64 (neg : Bool) (ds : List Char) : Option Int :=
  if isDigitString ds then
    (if inInt64 (if neg then -(digitsValue ds : Int) else (digitsValue ds : Int))
     then some (if neg then -(digitsValue ds : Int) else (digitsValue ds : Int)) else none)
  else none

/-- The reference coercion in the words of the specification, on the result of the
lookup: a native integer is itself, a float is its truncation toward zero, a string that
is a base-10 integer is that integer, anything else and an absent key is zero. The result
is `none` where the words name no integer (a float that is infinite or not a number). -/
def referenceCoercion (v : Option GoValue) : Option Int :=
  match v with
  | some (.int64 n) => some n
  | some (.int n) => some n
  | some (.float64 f) => f.truncate
  | some (.string s) =>
    match decimalInteger s with
    | some n => some n
    | none => some 0
  | _ => some 0

/-- The reference coercion cut to int64: as `referenceCoercion`, except that a float
whose truncation is no int64 gives the implementation's value and a string whose integer
is no int64 gives zero. -/
def coercionInInt64 (rt : GoRuntime) (v : Option GoValue) : Int :=
  match v with
  | some (.int64 n) => n
  | some (.int n) => n
  | some (.float64 f) =>
    match f.truncate with
    | some t => if inInt64 t then t else rt.float64ToInt64Overflow f
    | none => rt.float64ToInt64Overflow f
  | some (.string s) =>
    match decimalInteger s with
    | some n => if inInt64 n then n else 0
    | none => 0
  | _ => 0

/-- An amount in none of the recognised representations: not a native integer, not a
float, and not a string that is a base-10 integer. -/
def unrecognisedAmount (v : GoValue) : Bool :=
  match v with
  | .int64 _ => false
  | .int _ => false
  | .float64 _ => false
  | .string s => (decimalInteger s).isNone
  | _ => true

/-- The coercion claim for one lookup: `getInt64` returns the integer that the reference
coercion names. -/
def MatchesReference (rt : GoRuntime) (data : WireMap) (key : String) : Prop :=
  referenceCoercion (GoMap.lookup data key) = some (getInt64 rt data key)

/-- A wire response whose amount is the base-10 integer just above the largest int64. -/
def overflowAmountResponse : WireMap :=
  .mk [("payment_id", .string "p1"), ("amount", .string "9223372036854775808")]

/-- The flagging claim for one response and one amount value: the translation of the
response with that amount differs from the translation of the same response with the
integer amount 0. -/
def FlagsAmount (rt : GoRuntime) (es : Entries) (v : GoValue) : Prop :=
  convertFromHyperswitchPayment rt (.mk (Entries.set es "amount" v)) "" "" ≠
    convertFromHyperswitchPayment rt (.mk (Entries.set es "amount" (.int64 0))) "" ""

/-- The mocked wire response of the scenario, before its amount is set. -/
def scenarioResponse : Entries :=
  [("payment_id", .string "p1"), ("status", .string "succeeded"), ("currency", .string "usd"),
   ("payment_method", .string "card"), ("created", .string "2024-01-01T00:00:00Z")]

/-- The string stored under a reserved key of the response's metadata, when the
response has a metadata map with a string under that key. -/
def storedCorrelation (resp : WireMap) (key : String) : Option String :=
  match GoMap.lookup resp "metadata" with
  | some (.map md) =>
    match GoMap.lookup md key with
    | some (.string s) => some s
    | _ => none
  | _ => none

/-- Resolution of one correlation id: the caller's id when non-empty, otherwise the
stored one, otherwise empty. -/
def resolveCorrelation (supplied : String) (stored : Option String) : String :=
  if supplied ≠ "" then supplied else stored.getD ""

/-- The body of the delivery of `testWebhookHandling` after binding; JSON numbers are
bound as float64. -/
def testWebhookData : WireMap :=
  .mk [("amount", .float64 (.finite 1000 0)),
       ("currency", .string "USD"),
       ("event_type", .string "payment_succeeded"),
       ("payment_id", .string "test_payment_123"),
       ("status", .string "succeeded"),
       ("timestamp", .string "2024-01-01T00:00:00Z")]

/-- The delivery of `testWebhookHandling` as the handler sees it, for a given value of
the signature header; the test sends none, so its header value is the empty string. -/
def testWebhookDelivery (signature : String) : WebhookRequest :=
  { signature := signature
    rawBody := "\x7b\"amount\":1000,\"currency\":\"USD\",\"event_type\":\"payment_succeeded\"," ++
      "\"payment_id\":\"test_payment_123\",\"status\":\"succeeded\"," ++
      "\"timestamp\":\"2024-01-01T00:00:00Z\"\x7d"
    bound := some testWebhookData }

/-- The five event types that have a handler of their own. -/
def knownEventTypes : List String :=
  ["payment_succeeded", "payment_failed", "refund_succeeded", "refund_failed", "dispute_opened"]

/-- The record the default branch of the switch logs. -/
def unknownEventLog (eventType : String) : LogEntry :=
  ⟨.warn, "Unknown webhook event type", [("event_type", eventType)]⟩

/-- A delivery whose body binds to the one field `event_type`. -/
def eventDelivery (eventType : String) : WebhookRequest :=
  { signature := "", rawBody := "", bound := some (.mk [("event_type", .string eventType)]) }

/-- A delivery whose body does not bind as a JSON object. -/
def malformedDelivery : WebhookRequest :=
  { signature := "", rawBody := "not json", bound := none }

/-- A delivery whose `event_type` is a number. -/
def numericEventDelivery : WebhookRequest :=
  { signature := "", rawBody := "", bound := some (.mk [("event_type", .float64 (.finite 7 0))]) }

/-- The body has no string under `event_type`: the key is absent or holds another type. -/
def lacksEventType (data : WireMap) : Prop :=
  ∀ s, GoMap.index data "event_type" ≠ .string s

/-- A payment-succeeded delivery that carries the event id `evt_1`. -/
def duplicateDelivery : WebhookRequest :=
  { signature := "", rawBody := ""
    bound := some (.mk [("event_id", .string "evt_1"),
                        ("event_type", .string "payment_succeeded"),
                        ("payment_id", .string "test_payment_123")]) }

/-- The duplicate-delivery claim for one pair of deliveries: handling both runs exactly
one handler. -/
def HandledOnce (cfg : Config) (first second : WebhookRequest) : Prop :=
  (dispatchedOver cfg [first, second]).length = 1

/-- The delivery reaches dispatch: its body binds and has a string `event_type`. -/
def reachesDispatch (req : WebhookRequest) : Prop :=
  ∃ data eventType, req.bound = some data ∧
    GoMap.lookup data "event_type" = some (.string eventType)

/-- A client whose three lookups all fail with the same error text. -/
def failingClient (err : String) : Client :=
  { GetPayment := fun _ => .error err
    GetRefund := fun _ => .error err
    GetCustomer := fun _ => .error err }

/-- The not-found claim for the payment handler and one error text that reports a
missing entity: the caller gets 404. -/
def PaymentNotFoundIs404 (rt : GoRuntime) (err : String) : Prop :=
  (GetPaymentHandler rt (failingClient err) "test_payment_123").status = 404

/-- The status claim for one operation and one completed response: a status outside
200..299 gives an error. -/
def ErrorOutside2xx {α : Type} (op : Except String (RestyResponse α) → Except String α)
    (resp : RestyResponse α) : Prop :=
  (resp.StatusCode < 200 ∨ 299 < resp.StatusCode) → ∃ err, op (.ok resp) = .error err

/-- A completed response with status 304; the result value plays no part and is the unit
value here. -/
def notModifiedResponse : RestyResponse Unit :=
  { StatusCode := 304, Status := "304 Not Modified", Result := () }

/-- Two strings differ only in the case of ASCII letters. -/
def sameUpToCase (a b : String) : Prop :=
  a.data.map asciiToLower = b.data.map asciiToLower

/-- An upper-case code: ASCII, with no rune in `a`..`z`. -/
def isUpperCode (s : String) : Bool :=
  s.data.all (fun c => isASCIIRune c && !decide ('a' ≤ c ∧ c ≤ 'z'))

/-- The customer object as the claim words it: `id`, then `name`, `email` and `phone`,
each exactly when non-empty. -/
def expectedCustomerKey (userID : String) (ci : CustomerInfo) (key : String) : Option GoValue :=
  if key = "id" then some (.string userID)
  else if key = "name" then (if ci.Name ≠ "" then some (.string ci.Name) else none)
  else if key = "email" then (if ci.Email ≠ "" then some (.string ci.Email) else none)
  else if key = "phone" then (if ci.Phone ≠ "" then some (.string ci.Phone) else none)
  else none

/-- The request of `testCreatePayment` with an allocated, empty metadata map and a
billing address. -/
def addressedRequest : PaymentRequest :=
  { testCreatePaymentRequest with
    Metadata := .mk []
    CustomerInfo := some
      { Name := "John Doe", Email := "", Phone := "+1234567890"
        Address := some { Line1 := "1 Main St", Line2 := "", City := "Springfield",
                          State := "IL", Zip := "62701", Country := "US" } } }

/-- The optional-field claim for one request: in every wire request produced, each of
`return_url`, `webhook_url` and `description` is present exactly when its source is
non-empty. -/
def OmitsEmptyOptionals (rt : GoRuntime) (cfg : Config) (r : PaymentRequest) : Prop :=
  ∀ w, convertToHyperswitchPayment rt cfg r = .ok w →
    ((Entries.lookup w "return_url").isSome = true ↔ r.ReturnURL ≠ "") ∧
    ((Entries.lookup w "webhook_url").isSome = true ↔ cfg.WebhookURL ≠ "") ∧
    ((Entries.lookup w "description").isSome = true ↔ r.Description ≠ "")

/-- The entries without any entry for `key`. -/
def Entries.erase : Entries → String → Entries
  | [], _ => []
  | (k, v) :: rest, key =>
    if k = key then Entries.erase rest key else (k, v) :: Entries.erase rest key

/-- The wire map without `key`; the nil map stays the nil map. -/
def GoMap.erase : WireMap → String → WireMap
  | .nilMap, _ => .nilMap
  | .mk es, key => .mk (Entries.erase es key)

/-- The value found under a timestamp key gives no instant: the key is absent, the value
is not a string, or it is a string that does not parse as RFC 3339. -/
def givesNoInstant (rt : GoRuntime) (v : Option GoValue) : Prop :=
  match v with
  | some (.string s) => rt.parseRFC3339 s = none
  | _ => True

/-- The next action as the claim words it: present exactly when the wire has an object
under `next_action`, with its `type`, `redirect_to_url` and `data`. -/
def wireNextAction (resp : WireMap) : Option NextAction :=
  match GoMap.lookup resp "next_action" with
  | some (.map m) =>
    some { ActionType := getString m "type"
           RedirectToURL := getString m "redirect_to_url"
           Data := GoMap.index m "data" }
  | _ => none

/-- The metadata of a wire response: the map under `metadata`, else the nil map. -/
def wireResponseMetadata (resp : WireMap) : WireMap :=
  match GoMap.lookup resp "metadata" with
  | some (.map m) => m
  | _ => .nilMap

/-- The handler that the claim assigns to an event type. -/
def expectedBranch (eventType : String) : WebhookBranch :=
  match eventType with
  | "payment_succeeded" => .PaymentSucceeded
  | "payment_failed" => .PaymentFailed
  | "refund_succeeded" => .RefundSucceeded
  | "refund_failed" => .RefundFailed
  | "dispute_opened" => .DisputeOpened
  | _ => .Unknown

/-- The bridge payment of the claim's example: the float64 nearest to 19.99, which is
`5626684784446013 * 2 ^ (-48)`. -/
def bridgeExample : SunnyPayment :=
  { UserID := "u1", Amount := .finite 5626684784446013 (-48), Currency := "usd"
    Method := "card", Description := "", OrderID := "o1" }

/-- The refund request of `testCreateRefund`: a partial refund of 500. -/
def testRefundRequest : RefundRequest :=
  { PaymentID := "test_payment_123", Amount := 500, Reason := "Test refund for integration"
    Metadata := .nilMap }

/-- The mocked wire response of the scenario with the integer amount 1000. -/
def scenarioWireResponse : WireMap :=
  .mk (Entries.set scenarioResponse "amount" (.int64 1000))

/-- The wire response of a refund of `testCreateRefund`: it echoes the payment id, gives
the amount as a JSON number and the currency in lower case, and has a `created` stamp and
no `last_modified`. -/
def mockRefundResponse : WireMap :=
  .mk [("refund_id", .string "re_1"),
       ("payment_id", .string "test_payment_123"),
       ("amount", .float64 (.finite 500 0)),
       ("currency", .string "usd"),
       ("status", .string "succeeded"),
       ("reason", .string "Test refund for integration"),
       ("created", .string "2024-01-01T00:00:00Z")]

/-- The scenario input with caller metadata of its own: one key that is not reserved. -/
def campaignRequest : PaymentRequest :=
  { scenarioRequest with Metadata := .mk [("campaign", .string "spring")] }

/-- The response body of the bridge for the example payment, with the forwarded amount
left open. -/
def bridgeExampleBody (amount : Int) : WireMap :=
  .mk [("message", .string "Payment forwarded to Hyperswitch"),
       ("data", .map (.mk [
          ("user_id", .string "u1"),
          ("amount", .int64 amount),
          ("currency", .string "usd"),
          ("payment_method", .string "card"),
          ("description", .string ""),
          ("order_id", .string "o1")]))]

/-! ## Map lemmas -/

theorem Entries.lookup_set_self (es : Entries) (key : String) (val : GoValue) :
    Entries.lookup (Entries.set es key val) key = some val := by
  induction es with
  | nil => simp [Entries.set, Entries.lookup]
  | cons e rest ih =>
    obtain ⟨k, v⟩ := e
    by_cases h : k = key
    · simp [Entries.set, Entries.lookup, h]
    · simp [Entries.set, Entries.lookup, h, ih]

theorem Entries.lookup_set_ne (es : Entries) (key other : String) (val : GoValue)
    (hne : key ≠ other) :
    Entries.lookup (Entries.set es key val) other = Entries.lookup es other := by
  induction es with
  | nil => simp [Entries.set, Entries.lookup, hne]
  | cons e rest ih =>
    obtain ⟨k, v⟩ := e
    by_cases h : k = key
    · subst h
      simp [Entries.set, Entries.lookup, hne]
    · by_cases h2 : k = other
      · subst h2
        simp [Entries.set, Entries.lookup, h]
      · simp [Entries.set, Entries.lookup, h, h2, ih]

/-! ## Outbound translation: lemmas -/

/-- The map literal that `convertToHyperswitchPayment` starts from. -/
theorem wireRequestBase_lookup (rt : GoRuntime) (cfg : Config) (r : PaymentRequest)
    (key : String) (h1 : "customer" ≠ key) (h2 : "billing" ≠ key) (h3 : "return_url" ≠ key)
    (h4 : "webhook_url" ≠ key) :
    Entries.lookup (wireRequestBase rt cfg r) key =
      Entries.lookup [
        ("amount", .int64 r.Amount),
        ("currency", .string (toLower rt r.Currency)),
        ("payment_method", .string r.Method),
        ("description", .string r.Description),
        ("metadata", .map r.Metadata),
        ("capture", .string "automatic"),
        ("confirm", .string "automatic")] key := by
  unfold wireRequestBase
  by_cases hw : cfg.WebhookURL = "" <;> by_cases hr : r.ReturnURL = "" <;>
    cases hci : r.CustomerInfo with
    | none => simp [hw, hr, Entries.lookup_set_ne, h1, h2, h3, h4]
    | some ci =>
      cases ha : ci.Address <;> simp [hw, hr, ha, Entries.lookup_set_ne, h1, h2, h3, h4]

theorem wireRequestBase_lookup_amount (rt : GoRuntime) (cfg : Config) (r : PaymentRequest) :
    Entries.lookup (wireRequestBase rt cfg r) "amount" = some (.int64 r.Amount) := by
  rw [wireRequestBase_lookup rt cfg r "amount" (by decide) (by decide) (by decide) (by decide)]
  simp [Entries.lookup]

theorem wireRequestBase_lookup_currency (rt : GoRuntime) (cfg : Config) (r : PaymentRequest) :
    Entries.lookup (wireRequestBase rt cfg r) "currency" =
      some (.string (toLower rt r.Currency)) := by
  rw [wireRequestBase_lookup rt cfg r "currency" (by decide) (by decide) (by decide) (by decide)]
  simp [Entries.lookup]

theorem wireRequestBase_lookup_metadata (rt : GoRuntime) (cfg : Config) (r : PaymentRequest) :
    Entries.lookup (wireRequestBase rt cfg r) "metadata" = some (.map r.Metadata) := by
  rw [wireRequestBase_lookup rt cfg r "metadata" (by decide) (by decide) (by decide) (by decide)]
  simp [Entries.lookup]

/-- With an order id and the nil metadata map the correlation block panics. -/
theorem convertToHyperswitchPayment_nil_metadata (rt : GoRuntime) (cfg : Config)
    (r : PaymentRequest) (ho : r.OrderID ≠ "") (hm : r.Metadata = .nilMap) :
    convertToHyperswitchPayment rt cfg r = .error "assignment to entry in nil map" := by
  unfold convertToHyperswitchPayment addCorrelation
  simp [ho, Entries.index, wireRequestBase_lookup_metadata, hm, GoValue.isNilInterface]

/-- With an order id and an allocated metadata map the translation returns, and both
reserved keys are assigned in that map. -/
theorem convertToHyperswitchPayment_allocated_metadata (rt : GoRuntime) (cfg : Config)
    (r : PaymentRequest) (es : Entries) (ho : r.OrderID ≠ "") (hm : r.Metadata = .mk es) :
    convertToHyperswitchPayment rt cfg r =
      .ok (Entries.set (wireRequestBase rt cfg r) "metadata"
        (.map (.mk (Entries.set (Entries.set es "sunny_order_id" (.string r.OrderID))
          "sunny_user_id" (.string r.UserID))))) := by
  unfold convertToHyperswitchPayment addCorrelation
  simp [ho, Entries.index, wireRequestBase_lookup_metadata, hm, GoValue.isNilInterface]

/-- Without an order id the translation returns the base request. -/
theorem convertToHyperswitchPayment_no_order (rt : GoRuntime) (cfg : Config)
    (r : PaymentRequest) (ho : r.OrderID = "") :
    convertToHyperswitchPayment rt cfg r = .ok (wireRequestBase rt cfg r) := by
  unfold convertToHyperswitchPayment
  simp [ho]

/-! ## Claims on the outbound translation -/

/-- C1 (failing input): on the request of `testCreatePayment`, which carries an order id
and no metadata map, `convertToHyperswitchPayment` returns no wire request: it panics
with an assignment to an entry of the nil map, for every runtime and configuration. -/
theorem convertToHyperswitchPayment_testCreatePayment_panics (rt : GoRuntime) (cfg : Config) :
    convertToHyperswitchPayment rt cfg testCreatePaymentRequest =
      .error "assignment to entry in nil map" :=
  convertToHyperswitchPayment_nil_metadata rt cfg testCreatePaymentRequest (by decide) rfl

/-- C3 (failing input): on the scenario input (order id `o1`, user id `u1`, no metadata
map) `convertToHyperswitchPayment` panics, so no wire metadata maps the order key to
`o1`. -/
theorem convertToHyperswitchPayment_scenario_panics (rt : GoRuntime) (cfg : Config) :
    convertToHyperswitchPayment rt cfg scenarioRequest =
      .error "assignment to entry in nil map" :=
  convertToHyperswitchPayment_nil_metadata rt cfg scenarioRequest (by decide) rfl

/-- C4 (counterexample): for the request whose metadata already holds both reserved
keys, the translation returns a wire request in which the caller's values are gone, so
the collision rule as claimed fails. -/
theorem keepsCallerCorrelation_fails :
    ¬ KeepsCallerCorrelation exampleRuntime testConfig collisionRequest := by
  intro h
  obtain ⟨md, hmd, hv⟩ :=
    h _ "sunny_order_id" (.string "callers-order") rfl (Or.inl rfl) rfl
  have hmd2 : md = .mk [("sunny_order_id", .string "o1"), ("sunny_user_id", .string "u1")] := by
    have : wireMetadata
        (Entries.set (wireRequestBase exampleRuntime testConfig collisionRequest) "metadata"
          (.map (.mk [("sunny_order_id", .string "o1"), ("sunny_user_id", .string "u1")])))
        = some md := hmd
    simp [wireMetadata, Entries.index, Entries.lookup_set_self] at this
    exact this.symm
  subst hmd2
  simp [GoMap.lookup, Entries.lookup] at hv

/-- C4 (amended): for every request with an allocated metadata map and a non-empty order
id, whatever the map holds, the translation returns a wire request (no error) whose
metadata maps the reserved order key to `OrderID` and the reserved user key to `UserID`:
a caller value under a reserved key is overwritten. -/
theorem convertToHyperswitchPayment_overwrites_reserved (rt : GoRuntime) (cfg : Config)
    (r : PaymentRequest) (es : Entries) (hm : r.Metadata = .mk es) (ho : r.OrderID ≠ "") :
    ∃ w md, convertToHyperswitchPayment rt cfg r = .ok w ∧
      wireMetadata w = some (.mk md) ∧
      Entries.lookup md "sunny_order_id" = some (.string r.OrderID) ∧
      Entries.lookup md "sunny_user_id" = some (.string r.UserID) := by
  refine ⟨_, Entries.set (Entries.set es "sunny_order_id" (.string r.OrderID))
    "sunny_user_id" (.string r.UserID),
    convertToHyperswitchPayment_allocated_metadata rt cfg r es ho hm, ?_, ?_, ?_⟩
  · simp [wireMetadata, Entries.index, Entries.lookup_set_self]
  · rw [Entries.lookup_set_ne _ _ _ _ (by decide), Entries.lookup_set_self]
  · rw [Entries.lookup_set_self]

/-- C4 (witness): the amended statement at the request whose metadata already holds both
reserved keys. -/
theorem convertToHyperswitchPayment_overwrites_reserved_witness :
    ∃ w md, convertToHyperswitchPayment exampleRuntime testConfig collisionRequest = .ok w ∧
      wireMetadata w = some (.mk md) ∧
      Entries.lookup md "sunny_order_id" = some (.string collisionRequest.OrderID) ∧
      Entries.lookup md "sunny_user_id" = some (.string collisionRequest.UserID) :=
  convertToHyperswitchPayment_overwrites_reserved exampleRuntime testConfig collisionRequest
    [("sunny_order_id", .string "callers-order"), ("sunny_user_id", .string "callers-user")]
    rfl (by decide)

/-! ## Claims on the inbound translation -/

theorem extractNextAction_UserID (resp : WireMap) (r : PaymentResponse) :
    (extractNextAction resp r).UserID = r.UserID := by
  unfold extractNextAction
  split <;> rfl

theorem extractNextAction_OrderID (resp : WireMap) (r : PaymentResponse) :
    (extractNextAction resp r).OrderID = r.OrderID := by
  unfold extractNextAction
  split <;> rfl

theorem extractMetadata_UserID (resp : WireMap) (userID orderID : String)
    (r : PaymentResponse) (hr : r.UserID = userID) :
    (extractMetadata resp userID orderID r).UserID =
      resolveCorrelation userID (storedCorrelation resp "sunny_user_id") := by
  unfold extractMetadata resolveCorrelation storedCorrelation GoMap.index
  cases h : GoMap.lookup resp "metadata" with
  | none => by_cases hu : userID = "" <;> simp [hu, hr]
  | some v =>
    cases v with
    | map md =>
      simp only [Option.getD_some]
      cases h2 : GoMap.lookup md "sunny_user_id" with
      | none =>
        cases h3 : GoMap.lookup md "sunny_order_id" with
        | none => by_cases hu : userID = "" <;> by_cases ho : orderID = "" <;> simp [hu, ho, hr]
        | some v3 =>
          cases v3 <;> by_cases hu : userID = "" <;> by_cases ho : orderID = "" <;>
            simp [hu, ho, hr]
      | some v2 =>
        cases h3 : GoMap.lookup md "sunny_order_id" with
        | none =>
          cases v2 <;> by_cases hu : userID = "" <;> by_cases ho : orderID = "" <;>
            simp [hu, ho, hr]
        | some v3 =>
          cases v2 <;> cases v3 <;> by_cases hu : userID = "" <;> by_cases ho : orderID = "" <;>
            simp [hu, ho, hr]
    | _ => by_cases hu : userID = "" <;> simp [hu, hr]

theorem extractMetadata_OrderID (resp : WireMap) (userID orderID : String)
    (r : PaymentResponse) (hr : r.OrderID = orderID) :
    (extractMetadata resp userID orderID r).OrderID =
      resolveCorrelation orderID (storedCorrelation resp "sunny_order_id") := by
  unfold extractMetadata resolveCorrelation storedCorrelation GoMap.index
  cases h : GoMap.lookup resp "metadata" with
  | none => by_cases ho : orderID = "" <;> simp [ho, hr]
  | some v =>
    cases v with
    | map md =>
      simp only [Option.getD_some]
      cases h2 : GoMap.lookup md "sunny_user_id" with
      | none =>
        cases h3 : GoMap.lookup md "sunny_order_id" with
        | none => by_cases hu : userID = "" <;> by_cases ho : orderID = "" <;> simp [hu, ho, hr]
        | some v3 =>
          cases v3 <;> by_cases hu : userID = "" <;> by_cases ho : orderID = "" <;>
            simp [hu, ho, hr]
      | some v2 =>
        cases h3 : GoMap.lookup md "sunny_order_id" with
        | none =>
          cases v2 <;> by_cases hu : userID = "" <;> by_cases ho : orderID = "" <;>
            simp [hu, ho, hr]
        | some v3 =>
          cases v2 <;> cases v3 <;> by_cases hu : userID = "" <;> by_cases ho : orderID = "" <;>
            simp [hu, ho, hr]
    | _ => by_cases ho : orderID = "" <;> simp [ho, hr]

/-- C8: the `UserID` of `convertFromHyperswitchPayment(resp, userID, orderID)` is
`userID` when that is non-empty, otherwise the string under the reserved user key of the
response metadata when there is one, otherwise empty; `OrderID` is resolved the same way
from `orderID` and the reserved order key. -/
theorem convertFromHyperswitchPayment_correlation (rt : GoRuntime) (resp : WireMap)
    (userID orderID : String) :
    (convertFromHyperswitchPayment rt resp userID orderID).UserID =
        resolveCorrelation userID (storedCorrelation resp "sunny_user_id") ∧
    (convertFromHyperswitchPayment rt resp userID orderID).OrderID =
        resolveCorrelation orderID (storedCorrelation resp "sunny_order_id") := by
  unfold convertFromHyperswitchPayment
  simp only [extractNextAction_UserID, extractNextAction_OrderID]
  exact ⟨extractMetadata_UserID resp userID orderID _ rfl,
    extractMetadata_OrderID resp userID orderID _ rfl⟩

/-! ## Claims on the webhook router -/

/-- The signature check never rejects: the handler is the processing of the body. -/
theorem WebhookHandler_eq_processWebhook (cfg : Config) (req : WebhookRequest) :
    WebhookHandler cfg req = processWebhook req := by
  simp [WebhookHandler, verifyWebhookSignature]

/-- C9 (failing input): with the webhook secret of the test configuration set, the
delivery of `testWebhookHandling` is answered 200 `received` and the payment-succeeded
handler runs, for every value of the signature header, the missing header included. -/
theorem WebhookHandler_accepts_any_signature (signature : String) :
    testConfig.WebhookSecret ≠ "" ∧
    WebhookHandler testConfig (testWebhookDelivery signature) =
      { status := 200, body := [("status", "received")],
        dispatched := [WebhookBranch.PaymentSucceeded],
        logs := [⟨.info, "Processing Hyperswitch webhook", [("event_type", "payment_succeeded")]⟩,
                 ⟨.info, "Payment succeeded webhook received",
                   [("payment_id", "test_payment_123")]⟩] } := by
  refine ⟨by decide, ?_⟩
  rw [WebhookHandler_eq_processWebhook]
  rfl

/-- C10: for every configuration and every delivery whose body binds to a JSON object
with a string `event_type`, the handler answers 200 with the body `status: received`,
after running exactly the branch that the event type selects. -/
theorem WebhookHandler_acknowledges (cfg : Config) (req : WebhookRequest) (data : WireMap)
    (eventType : String) (hb : req.bound = some data)
    (he : GoMap.lookup data "event_type" = some (.string eventType)) :
    (WebhookHandler cfg req).status = 200 ∧
    (WebhookHandler cfg req).body = [("status", "received")] ∧
    (WebhookHandler cfg req).dispatched = [(dispatch eventType data).1] := by
  rw [WebhookHandler_eq_processWebhook]
  simp [processWebhook, hb, GoMap.index, he]

/-- C10 (witness): the delivery of `testWebhookHandling`, sent with a webhook secret
configured and no signature header. -/
theorem WebhookHandler_acknowledges_witness :
    (testWebhookDelivery "").bound = some testWebhookData ∧
    GoMap.lookup testWebhookData "event_type" = some (.string "payment_succeeded") ∧
    (WebhookHandler testConfig (testWebhookDelivery "")).status = 200 ∧
    (WebhookHandler testConfig (testWebhookDelivery "")).body = [("status", "received")] ∧
    (WebhookHandler testConfig (testWebhookDelivery "")).dispatched =
      [(dispatch "payment_succeeded" testWebhookData).1] :=
  ⟨rfl, rfl, WebhookHandler_acknowledges testConfig (testWebhookDelivery "") testWebhookData
    "payment_succeeded" rfl rfl⟩

/-! ## Case mapping on ASCII -/

set_option maxRecDepth 100000 in
theorem asciiToUpper_asciiToLower_ofNat : ∀ n : Nat, n < 128 →
    asciiToUpper (asciiToLower (Char.ofNat n)) = asciiToUpper (Char.ofNat n) ∧
    isASCIIRune (asciiToLower (Char.ofNat n)) = true := by
  decide

theorem toUpperRune_toLowerRune (rt : GoRuntime) (c : Char) (h : isASCIIRune c = true) :
    toUpperRune rt (toLowerRune rt c) = toUpperRune rt c := by
  have hn : c.toNat < 128 := by simpa [isASCIIRune] using h
  have key := asciiToUpper_asciiToLower_ofNat c.toNat hn
  rw [Char.ofNat_toNat] at key
  simp [toUpperRune, toLowerRune, h, key.1, key.2]

theorem toUpper_toLower (rt : GoRuntime) (s : String) (h : isASCII s = true) :
    toUpper rt (toLower rt s) = toUpper rt s := by
  unfold toUpper toLower
  simp only [List.map_map]
  congr 1
  apply List.map_congr_left
  intro c hc
  have : isASCIIRune c = true := by
    unfold isASCII at h
    exact List.all_eq_true.mp h c hc
  simpa using toUpperRune_toLowerRune rt c this

/-! ## Inbound translation: field lemmas -/

theorem extractNextAction_Amount (resp : WireMap) (r : PaymentResponse) :
    (extractNextAction resp r).Amount = r.Amount := by
  unfold extractNextAction
  split <;> rfl

theorem extractNextAction_Currency (resp : WireMap) (r : PaymentResponse) :
    (extractNextAction resp r).Currency = r.Currency := by
  unfold extractNextAction
  split <;> rfl

theorem extractMetadata_Amount (resp : WireMap) (userID orderID : String)
    (r : PaymentResponse) : (extractMetadata resp userID orderID r).Amount = r.Amount := by
  unfold extractMetadata
  repeat' split
  all_goals rfl

theorem extractMetadata_Currency (resp : WireMap) (userID orderID : String)
    (r : PaymentResponse) : (extractMetadata resp userID orderID r).Currency = r.Currency := by
  unfold extractMetadata
  repeat' split
  all_goals rfl

theorem convertFromHyperswitchPayment_Amount (rt : GoRuntime) (resp : WireMap)
    (userID orderID : String) :
    (convertFromHyperswitchPayment rt resp userID orderID).Amount = getInt64 rt resp "amount" := by
  unfold convertFromHyperswitchPayment
  simp only [extractNextAction_Amount, extractMetadata_Amount]
  rfl

theorem convertFromHyperswitchPayment_Currency (rt : GoRuntime) (resp : WireMap)
    (userID orderID : String) :
    (convertFromHyperswitchPayment rt resp userID orderID).Currency =
      toUpper rt (getString resp "currency") := by
  unfold convertFromHyperswitchPayment
  simp only [extractNextAction_Currency, extractMetadata_Currency]
  rfl

theorem convertFromHyperswitchPayment_UserID (rt : GoRuntime) (resp : WireMap)
    (userID orderID : String) :
    (convertFromHyperswitchPayment rt resp userID orderID).UserID =
      resolveCorrelation userID (storedCorrelation resp "sunny_user_id") := by
  unfold convertFromHyperswitchPayment
  simp only [extractNextAction_UserID]
  exact extractMetadata_UserID resp userID orderID _ rfl

theorem convertFromHyperswitchPayment_OrderID (rt : GoRuntime) (resp : WireMap)
    (userID orderID : String) :
    (convertFromHyperswitchPayment rt resp userID orderID).OrderID =
      resolveCorrelation orderID (storedCorrelation resp "sunny_order_id") := by
  unfold convertFromHyperswitchPayment
  simp only [extractNextAction_OrderID]
  exact extractMetadata_OrderID resp userID orderID _ rfl

/-! ## Round trip -/

/-- C2 (counterexample): the request without an order id translates to a wire request
that carries no correlation keys, and the response that echoes it comes back with an
empty user id instead of `u1`. -/
theorem roundTrip_fails_without_order :
    ¬ RoundTrip exampleRuntime testConfig noOrderRequest := by
  rintro ⟨w, hw, h⟩
  have hw2 : w = wireRequestBase exampleRuntime testConfig noOrderRequest := by
    have := convertToHyperswitchPayment_no_order exampleRuntime testConfig noOrderRequest rfl
    rw [this] at hw
    exact (Except.ok.inj hw).symm
  subst hw2
  have := (h (.mk (wireRequestBase exampleRuntime testConfig noOrderRequest))
    ⟨rfl, rfl, rfl⟩).2.2.1
  revert this
  decide

/-- What a response that echoes `w` translates back to, from the three echoed values. -/
theorem echo_fields (rt : GoRuntime) (w : Entries) (resp : WireMap) (amount : Int)
    (currency : String) (he : echoes w resp)
    (ha : Entries.lookup w "amount" = some (.int64 amount))
    (hc : Entries.lookup w "currency" = some (.string currency)) :
    (convertFromHyperswitchPayment rt resp "" "").Amount = amount ∧
    (convertFromHyperswitchPayment rt resp "" "").Currency = toUpper rt currency := by
  obtain ⟨h1, h2, _⟩ := he
  rw [convertFromHyperswitchPayment_Amount, convertFromHyperswitchPayment_Currency]
  simp [getInt64, getString, h1, h2, ha, hc]

/-- The ids recovered from a response whose metadata holds both reserved keys. -/
theorem echo_correlation (rt : GoRuntime) (resp : WireMap) (md : Entries)
    (userID orderID : String) (hm : GoMap.lookup resp "metadata" = some (.map (.mk md)))
    (hu : Entries.lookup md "sunny_user_id" = some (.string userID))
    (ho : Entries.lookup md "sunny_order_id" = some (.string orderID)) :
    (convertFromHyperswitchPayment rt resp "" "").UserID = userID ∧
    (convertFromHyperswitchPayment rt resp "" "").OrderID = orderID := by
  rw [convertFromHyperswitchPayment_UserID, convertFromHyperswitchPayment_OrderID]
  have hu2 : GoMap.lookup (.mk md) "sunny_user_id" = some (.string userID) := hu
  have ho2 : GoMap.lookup (.mk md) "sunny_order_id" = some (.string orderID) := ho
  simp only [resolveCorrelation, storedCorrelation, hm, hu2, ho2]
  simp

/-- C2 (amended): for every request on which the outbound translation returns (the order
id is empty or the metadata map is allocated), there is a wire request `w`, and every
response that echoes the amount, currency and metadata of `w` translates back, with empty
fallbacks, to the request's amount and to the upper-cased lower-cased currency, which for
an ASCII currency is the upper-cased currency; when the order id is non-empty it also
gives back the request's user id and order id. -/
theorem roundTrip_amended (rt : GoRuntime) (cfg : Config) (r : PaymentRequest)
    (h : r.OrderID = "" ∨ ∃ es, r.Metadata = .mk es) :
    ∃ w, convertToHyperswitchPayment rt cfg r = .ok w ∧
      ∀ resp, echoes w resp →
        (convertFromHyperswitchPayment rt resp "" "").Amount = r.Amount ∧
        (convertFromHyperswitchPayment rt resp "" "").Currency =
          toUpper rt (toLower rt r.Currency) ∧
        (isASCII r.Currency = true →
          (convertFromHyperswitchPayment rt resp "" "").Currency = toUpper rt r.Currency) ∧
        (r.OrderID ≠ "" →
          (convertFromHyperswitchPayment rt resp "" "").UserID = r.UserID ∧
          (convertFromHyperswitchPayment rt resp "" "").OrderID = r.OrderID) := by
  by_cases ho : r.OrderID = ""
  · refine ⟨_, convertToHyperswitchPayment_no_order rt cfg r ho, ?_⟩
    intro resp he
    obtain ⟨ha, hc⟩ := echo_fields rt _ resp r.Amount (toLower rt r.Currency) he
      (wireRequestBase_lookup_amount rt cfg r) (wireRequestBase_lookup_currency rt cfg r)
    refine ⟨ha, hc, ?_, fun hne => absurd ho hne⟩
    intro hascii
    rw [hc, toUpper_toLower rt r.Currency hascii]
  · have hes : ∃ es, r.Metadata = .mk es := h.resolve_left ho
    obtain ⟨es, hm⟩ := hes
    refine ⟨_, convertToHyperswitchPayment_allocated_metadata rt cfg r es ho hm, ?_⟩
    intro resp he
    obtain ⟨ha, hc⟩ := echo_fields rt _ resp r.Amount (toLower rt r.Currency) he
      (by rw [Entries.lookup_set_ne _ _ _ _ (by decide), wireRequestBase_lookup_amount])
      (by rw [Entries.lookup_set_ne _ _ _ _ (by decide), wireRequestBase_lookup_currency])
    refine ⟨ha, hc, ?_, fun _ => ?_⟩
    · intro hascii
      rw [hc, toUpper_toLower rt r.Currency hascii]
    · refine echo_correlation rt resp
        (Entries.set (Entries.set es "sunny_order_id" (.string r.OrderID))
          "sunny_user_id" (.string r.UserID)) r.UserID r.OrderID ?_ ?_ ?_
      · rw [he.2.2, Entries.lookup_set_self]
      · rw [Entries.lookup_set_self]
      · rw [Entries.lookup_set_ne _ _ _ _ (by decide), Entries.lookup_set_self]

/-- C2 (witness): the amended round trip at a request with an order id and an allocated
metadata map. -/
theorem roundTrip_amended_witness :
    (collisionRequest.OrderID = "" ∨ ∃ es, collisionRequest.Metadata = .mk es) ∧
    ∃ w, convertToHyperswitchPayment exampleRuntime testConfig collisionRequest = .ok w ∧
      ∀ resp, echoes w resp →
        (convertFromHyperswitchPayment exampleRuntime resp "" "").Amount =
          collisionRequest.Amount ∧
        (convertFromHyperswitchPayment exampleRuntime resp "" "").Currency =
          toUpper exampleRuntime (toLower exampleRuntime collisionRequest.Currency) ∧
        (isASCII collisionRequest.Currency = true →
          (convertFromHyperswitchPayment exampleRuntime resp "" "").Currency =
            toUpper exampleRuntime collisionRequest.Currency) ∧
        (collisionRequest.OrderID ≠ "" →
          (convertFromHyperswitchPayment exampleRuntime resp "" "").UserID =
            collisionRequest.UserID ∧
          (convertFromHyperswitchPayment exampleRuntime resp "" "").OrderID =
            collisionRequest.OrderID) :=
  ⟨Or.inr ⟨_, rfl⟩,
    roundTrip_amended exampleRuntime testConfig collisionRequest (Or.inr ⟨_, rfl⟩)⟩

/-! ## `strconv.ParseInt` -/

theorem digit_bounds (c : Char) (h : '0' ≤ c ∧ c ≤ '9') : 48 ≤ c.toNat ∧ c.toNat ≤ 57 :=
  ⟨h.1, h.2⟩

theorem foldl_digitStep_ge (cs : List Char) (n : Nat) : n ≤ cs.foldl digitStep n := by
  induction cs generalizing n with
  | nil => simp
  | cons c cs ih =>
    simp only [List.foldl_cons]
    have := ih (digitStep n c)
    unfold digitStep at this ⊢
    omega

theorem parseUintLoop_eq (cs : List Char) (n : Nat) (hn : n < 18446744073709551616) :
    parseUintLoop cs n =
      if cs.all isDecimalDigit = true ∧ cs.foldl digitStep n < 18446744073709551616
      then some (cs.foldl digitStep n) else none := by
  induction cs generalizing n with
  | nil =>
    rw [if_pos ⟨rfl, hn⟩]
    rfl
  | cons c cs ih =>
    unfold parseUintLoop
    by_cases hd : '0' ≤ c ∧ c ≤ '9'
    · have hb := digit_bounds c hd
      have hmono := foldl_digitStep_ge cs (digitStep n c)
      have h0 : '0'.toNat = 48 := rfl
      have hall : (c :: cs).all isDecimalDigit = cs.all isDecimalDigit := by
        simp [List.all_cons, isDecimalDigit, hd]
      have hp : (2 : Nat) ^ 64 = 18446744073709551616 := by norm_num
      rw [if_pos hd, hall, List.foldl_cons]
      simp only [h0, hp]
      have hstep : digitStep n c = n * 10 + (c.toNat - 48) := rfl
      rw [hstep] at hmono ⊢
      by_cases hcut : n ≥ 18446744073709551615 / 10 + 1
      · rw [if_pos hcut, if_neg]
        omega
      · rw [if_neg hcut]
        by_cases hov : n * 10 + (c.toNat - 48) < 18446744073709551616
        · have hmod : (n * 10 + (c.toNat - 48)) % 18446744073709551616
              = n * 10 + (c.toNat - 48) := Nat.mod_eq_of_lt hov
          rw [hmod, if_neg (by omega)]
          exact ih _ hov
        · rw [if_pos (by omega), if_neg]
          omega
    · have hall : (c :: cs).all isDecimalDigit = false := by
        simp [List.all_cons, isDecimalDigit, hd]
      rw [if_neg hd, hall, if_neg]
      simp

theorem parseUint_eq (cs : List Char) :
    parseUint cs =
      if isDigitString cs = true ∧ digitsValue cs < 18446744073709551616
      then some (digitsValue cs) else none := by
  cases cs with
  | nil => simp [parseUint, isDigitString]
  | cons c cs =>
    have : isDigitString (c :: cs) = (c :: cs).all isDecimalDigit := by
      simp [isDigitString]
    rw [this]
    exact parseUintLoop_eq (c :: cs) 0 (by norm_num)

theorem parseIntSigned_eq (neg : Bool) (ds : List Char) :
    parseIntSigned neg ds = signedInInt64 neg ds := by
  unfold parseIntSigned signedInInt64
  rw [parseUint_eq]
  by_cases hds : isDigitString ds = true
  · by_cases hlt : digitsValue ds < 18446744073709551616
    · rw [if_pos ⟨hds, hlt⟩]
      cases neg <;> simp [hds, inInt64, minInt64, maxInt64] <;> split_ifs <;> first | rfl | omega
    · rw [if_neg (by tauto)]
      cases neg <;> simp [hds, inInt64, minInt64, maxInt64]
      · rw [if_neg (by omega)]
      · rw [if_neg (by omega)]
  · rw [if_neg (by tauto)]
    simp [hds]

/-- The model of `strconv.ParseInt(s, 10, 64)` accepts exactly the strings that are a
base-10 integer within int64, and returns that integer. -/
theorem parseInt_eq (s : String) :
    parseInt s =
      match decimalInteger s with
      | some n => if inInt64 n then some n else none
      | none => none := by
  unfold parseInt decimalInteger
  cases hs : s.data with
  | nil => simp [isDigitString]
  | cons c cs =>
    by_cases hp : c = '+'
    · subst hp
      simp only [parseIntSigned_eq, signedInInt64]
      by_cases hds : isDigitString cs = true <;> simp [hds]
    · by_cases hm : c = '-'
      · subst hm
        simp only [parseIntSigned_eq, signedInInt64]
        by_cases hds : isDigitString cs = true <;> simp [hds]
      · simp only [parseIntSigned_eq, signedInInt64]
        split <;> first
          | (simp_all; done)
          | (split <;> simp_all)

/-! ## The base-10 string of an integer -/

theorem digitChar_facts : ∀ d : Nat, d < 10 →
    isDecimalDigit (digitChar d) = true ∧ (digitChar d).toNat - 48 = d ∧
    digitChar d ≠ '+' ∧ digitChar d ≠ '-' := by
  decide

theorem digitsValue_map_digitChar (L : List Nat) (hL : ∀ d ∈ L, d < 10) :
    digitsValue ((L.reverse).map digitChar) = Nat.ofDigits 10 L := by
  induction L with
  | nil => simp [digitsValue, Nat.ofDigits]
  | cons d L ih =>
    have hd := digitChar_facts d (hL d (List.mem_cons_self d L))
    have ih2 := ih (fun x hx => hL x (List.mem_cons_of_mem d hx))
    unfold digitsValue at ih2 ⊢
    simp only [List.reverse_cons, List.map_append, List.map_cons, List.map_nil,
      List.foldl_append, List.foldl_cons, List.foldl_nil, ih2, digitStep, hd.2.1,
      Nat.ofDigits_cons]
    ring

theorem all_map_digitChar (L : List Nat) (hL : ∀ d ∈ L, d < 10) :
    (L.map digitChar).all isDecimalDigit = true := by
  rw [List.all_eq_true]
  intro c hc
  obtain ⟨d, hd, rfl⟩ := List.mem_map.mp hc
  exact (digitChar_facts d (hL d hd)).1

theorem natDigits_isDigitString (m : Nat) : isDigitString (natDigits m) = true := by
  unfold natDigits
  by_cases h0 : m = 0
  · simp [h0, isDigitString, isDecimalDigit]
  · rw [if_neg h0]
    have hall := all_map_digitChar (Nat.digits 10 m).reverse
      (fun d hd => Nat.digits_lt_base (by norm_num) (List.mem_reverse.mp hd))
    have hne : (Nat.digits 10 m) ≠ [] := Nat.digits_ne_nil_iff_ne_zero.mpr h0
    unfold isDigitString
    rw [hall]
    simp [hne]

theorem natDigits_value (m : Nat) : digitsValue (natDigits m) = m := by
  unfold natDigits
  by_cases h0 : m = 0
  · subst h0
    decide
  · rw [if_neg h0, digitsValue_map_digitChar _ (fun d hd => Nat.digits_lt_base (by norm_num) hd),
      Nat.ofDigits_digits]

theorem natDigits_head (m : Nat) (c : Char) (cs : List Char) (h : natDigits m = c :: cs) :
    c ≠ '+' ∧ c ≠ '-' := by
  have hds := natDigits_isDigitString m
  rw [h] at hds
  have hc : isDecimalDigit c = true := by
    simp [isDigitString] at hds
    exact hds.1
  constructor <;> (intro hcc; subst hcc; revert hc; decide)

/-- The base-10 string of any integer is a base-10 integer, and denotes it. -/
theorem decimalInteger_formatInt (n : Int) : decimalInteger (formatInt n) = some n := by
  unfold decimalInteger formatInt
  by_cases hneg : n < 0
  · simp only [hneg, if_true, natDigits_isDigitString, natDigits_value]
    congr 1
    omega
  · simp only [hneg, if_false]
    have hds := natDigits_isDigitString n.natAbs
    have hval := natDigits_value n.natAbs
    split
    · rename_i ds heq
      exact absurd rfl (natDigits_head _ _ _ heq).2
    · rename_i ds heq
      exact absurd rfl (natDigits_head _ _ _ heq).1
    · rw [if_pos hds, hval]
      congr 1
      omega

theorem parseInt_formatInt (n : Int) (hn : inInt64 n) : parseInt (formatInt n) = some n := by
  rw [parseInt_eq, decimalInteger_formatInt]
  simp [hn]

/-! ## Amount coercion -/

theorem float64ToInt64_holdsInteger (rt : GoRuntime) (f : Float64) (n : Int)
    (hn : inInt64 n) (hf : f.holdsInteger n) : float64ToInt64 rt f = n := by
  cases f with
  | finite mant exp =>
    unfold Float64.holdsInteger at hf
    unfold float64ToInt64 Float64.truncate
    by_cases he : 0 ≤ exp
    · simp only [he, if_true] at hf ⊢
      rw [hf, if_pos hn]
    · simp only [he, if_false] at hf ⊢
      have hpos : (2 : Int) ^ (-exp).toNat ≠ 0 := by positivity
      rw [hf, Int.mul_tdiv_cancel _ hpos, if_pos hn]
  | inf neg => exact absurd hf (by simp [Float64.holdsInteger])
  | nan => exact absurd hf (by simp [Float64.holdsInteger])

/-- C5: for every integer `n` in the int64 range and every wire response whose `amount`
is the native integer `n`, a float holding exactly `n`, or the base-10 string of `n`, the
`Amount` of `convertFromHyperswitchPayment` is `n`. -/
theorem amount_unit_preservation (rt : GoRuntime) (resp : WireMap) (userID orderID : String)
    (n : Int) (v : GoValue) (hn : inInt64 n) (hv : representsAmount v n)
    (hl : GoMap.lookup resp "amount" = some v) :
    (convertFromHyperswitchPayment rt resp userID orderID).Amount = n := by
  rw [convertFromHyperswitchPayment_Amount]
  unfold getInt64
  rw [hl]
  rcases hv with h | h | ⟨f, h, hf⟩ | h
  · subst h; rfl
  · subst h; rfl
  · subst h
    exact float64ToInt64_holdsInteger rt f n hn hf
  · subst h
    simp only [parseInt_formatInt n hn]

/-- C5 (witness): the amounts 1000, 1000.0 and `"1000"` all translate to 1000. -/
theorem amount_unit_preservation_witness :
    inInt64 1000 ∧
    representsAmount (.int64 1000) 1000 ∧
    representsAmount (.float64 (.finite 1000 0)) 1000 ∧
    representsAmount (.string "1000") 1000 ∧
    (convertFromHyperswitchPayment exampleRuntime
      (.mk (Entries.set scenarioResponse "amount" (.int64 1000))) "" "").Amount = 1000 ∧
    (convertFromHyperswitchPayment exampleRuntime
      (.mk (Entries.set scenarioResponse "amount" (.float64 (.finite 1000 0)))) "" "").Amount
        = 1000 ∧
    (convertFromHyperswitchPayment exampleRuntime
      (.mk (Entries.set scenarioResponse "amount" (.string "1000"))) "" "").Amount = 1000 := by
  have h1 : representsAmount (.int64 1000) 1000 := Or.inl rfl
  have h2 : representsAmount (.float64 (.finite 1000 0)) 1000 :=
    Or.inr (Or.inr (Or.inl ⟨_, rfl, by simp [Float64.holdsInteger]⟩))
  have h3 : representsAmount (.string "1000") 1000 := by
    right; right; right
    simp [formatInt, natDigits, digitChar]
  exact ⟨by decide, h1, h2, h3,
    amount_unit_preservation exampleRuntime _ "" "" 1000 _ (by decide) h1 rfl,
    amount_unit_preservation exampleRuntime _ "" "" 1000 _ (by decide) h2 rfl,
    amount_unit_preservation exampleRuntime _ "" "" 1000 _ (by decide) h3 rfl⟩

/-- C6 (counterexample): the string `9223372036854775808` is a base-10 integer, so the
reference coercion names that integer, while `getInt64` returns 0. -/
theorem getInt64_differs_from_reference :
    referenceCoercion (GoMap.lookup overflowAmountResponse "amount") =
      some 9223372036854775808 ∧
    getInt64 exampleRuntime overflowAmountResponse "amount" = 0 ∧
    ¬ MatchesReference exampleRuntime overflowAmountResponse "amount" := by
  refine ⟨by decide, by decide, ?_⟩
  unfold MatchesReference
  decide

/-- The float64 nearest to 1000.7 coerces to 1000, and its negative to -1000. -/
theorem getInt64_truncates_toward_zero :
    getInt64 exampleRuntime (.mk [("amount", .float64 (.finite 4401125143661773 (-42)))])
      "amount" = 1000 ∧
    getInt64 exampleRuntime (.mk [("amount", .float64 (.finite (-4401125143661773) (-42)))])
      "amount" = -1000 := by
  decide

/-- C6 (amended): for every wire map and key, `getInt64` is the reference coercion cut to
int64: a native integer (`int64` or `int`) gives itself; a float gives its truncation
toward zero when that is an int64 and the implementation-dependent value otherwise; a
string that is a base-10 integer gives that integer when it is an int64 and 0 otherwise;
every other value, and an absent key, gives 0. -/
theorem getInt64_eq_coercionInInt64 (rt : GoRuntime) (data : WireMap) (key : String) :
    getInt64 rt data key = coercionInInt64 rt (GoMap.lookup data key) := by
  unfold getInt64 coercionInInt64
  cases GoMap.lookup data key with
  | none => rfl
  | some v =>
    cases v with
    | string s =>
      simp only [parseInt_eq]
      cases hd : decimalInteger s with
      | none => rfl
      | some n => by_cases hn : inInt64 n <;> simp [hn]
    | float64 f => rfl
    | _ => rfl

/-! ## Unrecognised amounts -/

/-- The inbound translation reads the response only through its lookups: two responses
that agree on every key but `amount`, and on the coerced amount, translate alike. -/
theorem convertFromHyperswitchPayment_congr (rt : GoRuntime) (a b : WireMap)
    (userID orderID : String)
    (h : ∀ key, key ≠ "amount" → GoMap.lookup a key = GoMap.lookup b key)
    (hamount : getInt64 rt a "amount" = getInt64 rt b "amount") :
    convertFromHyperswitchPayment rt a userID orderID =
      convertFromHyperswitchPayment rt b userID orderID := by
  have hs : ∀ key, key ≠ "amount" → getString a key = getString b key := by
    intro key hk
    unfold getString
    rw [h key hk]
  have hi : ∀ key, key ≠ "amount" → GoMap.index a key = GoMap.index b key := by
    intro key hk
    unfold GoMap.index
    rw [h key hk]
  unfold convertFromHyperswitchPayment initialResponse parseTimestamp extractMetadata
    extractNextAction
  simp only [hamount, hs "payment_id" (by decide), hs "status" (by decide),
    hs "currency" (by decide), hs "payment_method" (by decide), hs "created" (by decide),
    hs "last_modified" (by decide), hs "client_secret" (by decide),
    hs "error_message" (by decide), hs "error_code" (by decide), hs "description" (by decide),
    hi "metadata" (by decide), hi "next_action" (by decide)]

theorem getInt64_unrecognised (rt : GoRuntime) (data : WireMap) (v : GoValue)
    (hv : unrecognisedAmount v = true) (hl : GoMap.lookup data "amount" = some v) :
    getInt64 rt data "amount" = 0 := by
  unfold getInt64
  rw [hl]
  cases v with
  | string s =>
    have hnone : decimalInteger s = none := by
      simpa [unrecognisedAmount] using hv
    simp only [parseInt_eq, hnone]
  | int64 n => simp [unrecognisedAmount] at hv
  | int n => simp [unrecognisedAmount] at hv
  | float64 f => simp [unrecognisedAmount] at hv
  | _ => rfl

/-- C7 (counterexample): the scenario response with the amount `"abc"` and the same
response with the integer amount 0 translate to the same `PaymentResponse`, so the
unrecognised amount is not flagged. -/
theorem unrecognised_amount_not_flagged :
    unrecognisedAmount (.string "abc") = true ∧
    ¬ FlagsAmount exampleRuntime scenarioResponse (.string "abc") := by
  refine ⟨by decide, ?_⟩
  unfold FlagsAmount
  exact not_not_intro rfl

/-- C7 (amended): for every wire response and every amount in an unrecognised
representation (a boolean, an object, null, a string that is no base-10 integer, or any
other value that is neither a native integer nor a float), the inbound translation gives
amount 0 and nothing else: its result equals the result for the same response with the
integer amount 0. -/
theorem unrecognised_amount_is_zero (rt : GoRuntime) (es : Entries) (v : GoValue)
    (userID orderID : String) (hv : unrecognisedAmount v = true) :
    (convertFromHyperswitchPayment rt (.mk (Entries.set es "amount" v)) userID orderID).Amount
      = 0 ∧
    convertFromHyperswitchPayment rt (.mk (Entries.set es "amount" v)) userID orderID =
      convertFromHyperswitchPayment rt (.mk (Entries.set es "amount" (.int64 0)))
        userID orderID := by
  have h0 : getInt64 rt (.mk (Entries.set es "amount" v)) "amount" = 0 :=
    getInt64_unrecognised rt _ v hv (Entries.lookup_set_self es "amount" v)
  have h1 : getInt64 rt (.mk (Entries.set es "amount" (.int64 0))) "amount" = 0 := by
    unfold getInt64
    have : GoMap.lookup (.mk (Entries.set es "amount" (.int64 0))) "amount"
        = some (.int64 0) := Entries.lookup_set_self es "amount" _
    rw [this]
  refine ⟨by rw [convertFromHyperswitchPayment_Amount, h0], ?_⟩
  apply convertFromHyperswitchPayment_congr
  · intro key hk
    show Entries.lookup _ key = Entries.lookup _ key
    rw [Entries.lookup_set_ne _ _ _ _ (Ne.symm hk), Entries.lookup_set_ne _ _ _ _ (Ne.symm hk)]
  · rw [h0, h1]

/-- C7 (witness): the scenario response with the amount `"abc"`. -/
theorem unrecognised_amount_is_zero_witness :
    unrecognisedAmount (.string "abc") = true ∧
    (convertFromHyperswitchPayment exampleRuntime
      (.mk (Entries.set scenarioResponse "amount" (.string "abc"))) "" "").Amount = 0 ∧
    convertFromHyperswitchPayment exampleRuntime
      (.mk (Entries.set scenarioResponse "amount" (.string "abc"))) "" "" =
    convertFromHyperswitchPayment exampleRuntime
      (.mk (Entries.set scenarioResponse "amount" (.int64 0))) "" "" :=
  ⟨by decide, unrecognised_amount_is_zero exampleRuntime scenarioResponse (.string "abc") "" ""
    (by decide)⟩

/-! ## Webhook router: unknown events, rejected bodies, duplicates -/

theorem dispatch_unknown (eventType : String) (data : WireMap)
    (h : eventType ∉ knownEventTypes) :
    dispatch eventType data = (.Unknown, [unknownEventLog eventType]) := by
  simp only [knownEventTypes, List.mem_cons, List.mem_singleton, not_or, List.mem_nil_iff,
    or_false] at h
  obtain ⟨h1, h2, h3, h4, h5⟩ := h
  simp [dispatch, h1, h2, h3, h4, h5, unknownEventLog]

/-- C11: for every configuration and every delivery whose body binds with a string
`event_type` outside the five known types, the handler runs the default branch only (it
logs the unknown type and runs none of the five handlers) and answers 200 `received`;
it does not reject the delivery. -/
theorem WebhookHandler_unknown_event (cfg : Config) (req : WebhookRequest) (data : WireMap)
    (eventType : String) (hb : req.bound = some data)
    (he : GoMap.lookup data "event_type" = some (.string eventType))
    (hu : eventType ∉ knownEventTypes) :
    WebhookHandler cfg req =
      { status := 200, body := [("status", "received")],
        dispatched := [WebhookBranch.Unknown],
        logs := [⟨.info, "Processing Hyperswitch webhook", [("event_type", eventType)]⟩,
                 unknownEventLog eventType] } := by
  rw [WebhookHandler_eq_processWebhook]
  simp [processWebhook, hb, GoMap.index, he, dispatch_unknown eventType data hu]

/-- C11 (witness): the event type `some_future_event`. -/
theorem WebhookHandler_unknown_event_witness :
    (eventDelivery "some_future_event").bound =
      some (.mk [("event_type", .string "some_future_event")]) ∧
    "some_future_event" ∉ knownEventTypes ∧
    WebhookHandler testConfig (eventDelivery "some_future_event") =
      { status := 200, body := [("status", "received")],
        dispatched := [WebhookBranch.Unknown],
        logs := [⟨.info, "Processing Hyperswitch webhook",
                   [("event_type", "some_future_event")]⟩,
                 unknownEventLog "some_future_event"] } :=
  ⟨rfl, by decide,
    WebhookHandler_unknown_event testConfig (eventDelivery "some_future_event") _
      "some_future_event" rfl rfl (by decide)⟩

/-- C12: for every configuration and every delivery whose body does not bind as a JSON
object, or binds but has no string under `event_type`, the handler answers 400 and runs
no branch of the switch. The handler is a total function, so it returns on every
delivery. -/
theorem WebhookHandler_rejects_bad_body (cfg : Config) (req : WebhookRequest)
    (h : req.bound = none ∨ ∃ data, req.bound = some data ∧ lacksEventType data) :
    (WebhookHandler cfg req).status = 400 ∧ (WebhookHandler cfg req).dispatched = [] := by
  rw [WebhookHandler_eq_processWebhook]
  rcases h with h | ⟨data, hb, hl⟩
  · simp [processWebhook, h]
  · unfold processWebhook
    rw [hb]
    simp only
    cases hv : GoMap.index data "event_type" with
    | string s => exact absurd hv (hl s)
    | _ => exact ⟨rfl, rfl⟩

/-- C12 (witness): a body that does not bind, and a body whose `event_type` is a
number. -/
theorem WebhookHandler_rejects_bad_body_witness :
    malformedDelivery.bound = none ∧
    ((WebhookHandler testConfig malformedDelivery).status = 400 ∧
      (WebhookHandler testConfig malformedDelivery).dispatched = []) ∧
    ((WebhookHandler testConfig numericEventDelivery).status = 400 ∧
      (WebhookHandler testConfig numericEventDelivery).dispatched = []) :=
  ⟨rfl, WebhookHandler_rejects_bad_body testConfig malformedDelivery (Or.inl rfl),
    WebhookHandler_rejects_bad_body testConfig numericEventDelivery
      (Or.inr ⟨_, rfl, fun s hs => by simp [GoMap.index, GoMap.lookup, Entries.lookup] at hs⟩)⟩

/-- C13 (counterexample): the same delivery, with event id `evt_1`, handled twice runs
the payment-succeeded handler twice. -/
theorem duplicate_delivery_dispatched_twice :
    dispatchedOver testConfig [duplicateDelivery, duplicateDelivery] =
      [WebhookBranch.PaymentSucceeded, WebhookBranch.PaymentSucceeded] ∧
    ¬ HandledOnce testConfig duplicateDelivery duplicateDelivery := by
  have h : dispatchedOver testConfig [duplicateDelivery, duplicateDelivery] =
      [WebhookBranch.PaymentSucceeded, WebhookBranch.PaymentSucceeded] := by
    simp only [dispatchedOver, handleDeliveries, WebhookHandler_eq_processWebhook]
    rfl
  refine ⟨h, ?_⟩
  unfold HandledOnce
  rw [h]
  decide

theorem WebhookHandler_of_reachesDispatch (cfg : Config) (req : WebhookRequest)
    (h : reachesDispatch req) :
    (WebhookHandler cfg req).body = [("status", "received")] ∧
    (WebhookHandler cfg req).dispatched.length = 1 := by
  obtain ⟨data, eventType, hb, he⟩ := h
  rw [WebhookHandler_eq_processWebhook]
  simp [processWebhook, hb, GoMap.index, he]

/-- C13 (amended): for every configuration and every pair of deliveries that reach
dispatch, with the same event id or not, handling both runs two handlers, one per
delivery, and each answer is the fixed body `status: received`, which carries no event
id. -/
theorem deliveries_each_dispatched (cfg : Config) (first second : WebhookRequest)
    (h1 : reachesDispatch first) (h2 : reachesDispatch second) :
    (dispatchedOver cfg [first, second]).length = 2 ∧
    (handleDeliveries cfg [first, second]).map (fun r => r.body) =
      [[("status", "received")], [("status", "received")]] := by
  obtain ⟨b1, l1⟩ := WebhookHandler_of_reachesDispatch cfg first h1
  obtain ⟨b2, l2⟩ := WebhookHandler_of_reachesDispatch cfg second h2
  simp [dispatchedOver, handleDeliveries, b1, b2, l1, l2]

/-- C13 (witness): the delivery with event id `evt_1`, twice. -/
theorem deliveries_each_dispatched_witness :
    reachesDispatch duplicateDelivery ∧
    (dispatchedOver testConfig [duplicateDelivery, duplicateDelivery]).length = 2 ∧
    (handleDeliveries testConfig [duplicateDelivery, duplicateDelivery]).map (fun r => r.body) =
      [[("status", "received")], [("status", "received")]] :=
  ⟨⟨_, _, rfl, rfl⟩,
    deliveries_each_dispatched testConfig duplicateDelivery duplicateDelivery
      ⟨_, _, rfl, rfl⟩ ⟨_, _, rfl, rfl⟩⟩

/-! ## Get-by-id handlers and the service client -/

/-- C14 (counterexample): the payment handler answers 500, not 404, when the client
error reads `Payment Not Found` or `no such payment`, since neither text contains `404`
or the lower-case `not found`. -/
theorem payment_not_found_phrasing_gives_500 :
    (GetPaymentHandler exampleRuntime (failingClient "Payment Not Found")
      "test_payment_123").status = 500 ∧
    (GetPaymentHandler exampleRuntime (failingClient "no such payment")
      "test_payment_123").status = 500 ∧
    ¬ PaymentNotFoundIs404 exampleRuntime "Payment Not Found" := by
  refine ⟨by decide, by decide, ?_⟩
  unfold PaymentNotFoundIs404
  decide

/-- The refund and customer handlers have no not-found branch: every client error,
a 404 status included, is answered 500. -/
theorem refund_and_customer_errors_give_500 (rt : GoRuntime) (client : Client)
    (id err : String) (hid : id ≠ "") :
    (client.GetRefund id = .error err → (GetRefundHandler rt client id).status = 500) ∧
    (client.GetCustomer id = .error err → (GetCustomerHandler client id).status = 500) := by
  constructor
  · intro h
    simp [GetRefundHandler, hid, h]
  · intro h
    simp [GetCustomerHandler, hid, h]

/-- C14 (amended): for the payment handler, every non-empty payment id and every client
error, the answer is 404 exactly when the error text contains `404` or `not found`
(matched case-sensitively), and 500 otherwise. -/
theorem GetPaymentHandler_error_status (rt : GoRuntime) (client : Client)
    (paymentID err : String) (hid : paymentID ≠ "")
    (herr : client.GetPayment paymentID = .error err) :
    (GetPaymentHandler rt client paymentID).status =
      if stringsContains err "404" = true ∨ stringsContains err "not found" = true
      then 404 else 500 := by
  unfold GetPaymentHandler
  rw [if_neg hid, herr]
  by_cases h1 : stringsContains err "404" = true
  · simp [h1]
  · by_cases h2 : stringsContains err "not found" = true
    · simp [h1, h2]
    · simp [h1, h2]

/-- C14 (witness): the error text of a 404 status is answered 404. -/
theorem GetPaymentHandler_error_status_witness :
    "test_payment_123" ≠ "" ∧
    (failingClient "hyperswitch API error: 404 Not Found").GetPayment "test_payment_123" =
      .error "hyperswitch API error: 404 Not Found" ∧
    (GetPaymentHandler exampleRuntime (failingClient "hyperswitch API error: 404 Not Found")
      "test_payment_123").status =
      (if stringsContains "hyperswitch API error: 404 Not Found" "404" = true ∨
          stringsContains "hyperswitch API error: 404 Not Found" "not found" = true
       then 404 else 500) :=
  ⟨by decide, rfl,
    GetPaymentHandler_error_status exampleRuntime _ "test_payment_123"
      "hyperswitch API error: 404 Not Found" (by decide) rfl⟩

/-- C15 (counterexample): `GetPayment` on a completed response with status 304 returns
the result with no error. -/
theorem GetPayment_returns_result_on_304 :
    HyperswitchClient.GetPayment (.ok notModifiedResponse) = .ok () ∧
    ¬ ErrorOutside2xx HyperswitchClient.GetPayment notModifiedResponse := by
  have h : HyperswitchClient.GetPayment (.ok notModifiedResponse) = .ok () := by
    simp [HyperswitchClient.GetPayment, clientOperation, notModifiedResponse]
  refine ⟨h, ?_⟩
  intro hc
  obtain ⟨err, herr⟩ := hc (Or.inr (by decide))
  rw [h] at herr
  exact Except.noConfusion herr

theorem clientOperation_status {α : Type} (failure : String) (resp : RestyResponse α) :
    (400 ≤ resp.StatusCode →
      clientOperation failure (.ok resp) = .error ("hyperswitch API error: " ++ resp.Status)) ∧
    (resp.StatusCode < 400 → clientOperation failure (.ok resp) = .ok resp.Result) := by
  constructor
  · intro h
    simp [clientOperation, h]
  · intro h
    have : ¬ resp.StatusCode ≥ 400 := by omega
    simp [clientOperation, this]

/-- C15 (amended): for each of the seven operations and every completed response, a
status of 400 or above gives the API error and no result, and every status below 400 (a
2xx status, and also a 1xx or 3xx status) gives the result and no error. -/
theorem clientOperations_status {α : Type}
    (op : Except String (RestyResponse α) → Except String α) (resp : RestyResponse α)
    (hop : op ∈ clientOperations α) :
    (400 ≤ resp.StatusCode →
      op (.ok resp) = .error ("hyperswitch API error: " ++ resp.Status)) ∧
    (resp.StatusCode < 400 → op (.ok resp) = .ok resp.Result) := by
  simp only [clientOperations, List.mem_cons, List.mem_singleton, List.mem_nil_iff,
    or_false] at hop
  rcases hop with h | h | h | h | h | h | h <;> subst h <;>
    exact clientOperation_status _ resp

/-- C15 (witness): `GetPayment` at status 304. -/
theorem clientOperations_status_witness :
    (HyperswitchClient.GetPayment ∈ clientOperations Unit) ∧
    (400 ≤ notModifiedResponse.StatusCode →
      HyperswitchClient.GetPayment (.ok notModifiedResponse) =
        .error ("hyperswitch API error: " ++ notModifiedResponse.Status)) ∧
    (notModifiedResponse.StatusCode < 400 →
      HyperswitchClient.GetPayment (.ok notModifiedResponse) = .ok notModifiedResponse.Result) :=
  ⟨by simp [clientOperations],
    clientOperations_status HyperswitchClient.GetPayment notModifiedResponse
      (by simp [clientOperations])⟩

/-! ## The wire request: which requests produce one, and its fields -/

/-- The translation returns on every request but the one with an order id and the nil
metadata map. -/
theorem convertToHyperswitchPayment_returns (rt : GoRuntime) (cfg : Config)
    (r : PaymentRequest) (h : r.OrderID = "" ∨ ∃ es, r.Metadata = .mk es) :
    ∃ w, convertToHyperswitchPayment rt cfg r = .ok w := by
  by_cases ho : r.OrderID = ""
  · exact ⟨_, convertToHyperswitchPayment_no_order rt cfg r ho⟩
  · obtain ⟨es, hm⟩ := h.resolve_left ho
    exact ⟨_, convertToHyperswitchPayment_allocated_metadata rt cfg r es ho hm⟩

/-- A wire request that the translation produced is the base request, with at most the
`metadata` entry replaced. -/
theorem convertToHyperswitchPayment_ok_cases (rt : GoRuntime) (cfg : Config)
    (r : PaymentRequest) (w : Entries) (h : convertToHyperswitchPayment rt cfg r = .ok w) :
    w = wireRequestBase rt cfg r ∨
    ∃ md, w = Entries.set (wireRequestBase rt cfg r) "metadata" md := by
  by_cases ho : r.OrderID = ""
  · rw [convertToHyperswitchPayment_no_order rt cfg r ho] at h
    exact Or.inl (Except.ok.inj h).symm
  · cases hm : r.Metadata with
    | nilMap =>
      rw [convertToHyperswitchPayment_nil_metadata rt cfg r ho hm] at h
      exact Except.noConfusion h
    | mk es =>
      rw [convertToHyperswitchPayment_allocated_metadata rt cfg r es ho hm] at h
      exact Or.inr ⟨_, (Except.ok.inj h).symm⟩

theorem convertToHyperswitchPayment_ok_lookup (rt : GoRuntime) (cfg : Config)
    (r : PaymentRequest) (w : Entries) (key : String)
    (h : convertToHyperswitchPayment rt cfg r = .ok w) (hk : "metadata" ≠ key) :
    Entries.lookup w key = Entries.lookup (wireRequestBase rt cfg r) key := by
  rcases convertToHyperswitchPayment_ok_cases rt cfg r w h with hw | ⟨md, hw⟩
  · rw [hw]
  · rw [hw, Entries.lookup_set_ne _ _ _ _ hk]

/-- C16: every wire request that `convertToHyperswitchPayment` produces holds under
`amount` the int64 value `req.Amount` itself, neither rescaled nor turned into a float. -/
theorem wire_amount_is_request_amount (rt : GoRuntime) (cfg : Config) (r : PaymentRequest)
    (w : Entries) (h : convertToHyperswitchPayment rt cfg r = .ok w) :
    Entries.lookup w "amount" = some (.int64 r.Amount) := by
  rw [convertToHyperswitchPayment_ok_lookup rt cfg r w "amount" h (by decide),
    wireRequestBase_lookup_amount]

/-- C16 (witness): the request with an order id and an allocated metadata map. -/
theorem wire_amount_is_request_amount_witness :
    ∃ w, convertToHyperswitchPayment exampleRuntime testConfig addressedRequest = .ok w ∧
      Entries.lookup w "amount" = some (.int64 1000) := by
  obtain ⟨w, hw⟩ := convertToHyperswitchPayment_returns exampleRuntime testConfig
    addressedRequest (Or.inr ⟨_, rfl⟩)
  exact ⟨w, hw, wire_amount_is_request_amount exampleRuntime testConfig addressedRequest w hw⟩

/-! ## Case mapping: idempotence and canonical form -/

set_option maxRecDepth 100000 in
theorem asciiToLower_idem_ofNat : ∀ n : Nat, n < 128 →
    asciiToLower (asciiToLower (Char.ofNat n)) = asciiToLower (Char.ofNat n) := by
  decide

theorem toLowerRune_idem (rt : GoRuntime) (c : Char) (h : isASCIIRune c = true) :
    toLowerRune rt (toLowerRune rt c) = toLowerRune rt c := by
  have hn : c.toNat < 128 := by simpa [isASCIIRune] using h
  have h1 := asciiToLower_idem_ofNat c.toNat hn
  have h2 := (asciiToUpper_asciiToLower_ofNat c.toNat hn).2
  rw [Char.ofNat_toNat] at h1 h2
  simp [toLowerRune, h, h1, h2]

theorem toLower_idem_of_runes (rt : GoRuntime) (s : String)
    (h : ∀ c ∈ s.data, toLowerRune rt (toLowerRune rt c) = toLowerRune rt c) :
    toLower rt (toLower rt s) = toLower rt s := by
  unfold toLower
  simp only [List.map_map]
  congr 1
  apply List.map_congr_left
  intro c hc
  simpa using h c hc

theorem toLower_idem (rt : GoRuntime) (s : String)
    (h : isASCII s = true ∨ ∀ c, toLowerRune rt (toLowerRune rt c) = toLowerRune rt c) :
    toLower rt (toLower rt s) = toLower rt s := by
  apply toLower_idem_of_runes
  intro c hc
  rcases h with h | h
  · have : isASCIIRune c = true := by
      unfold isASCII at h
      exact List.all_eq_true.mp h c hc
    exact toLowerRune_idem rt c this
  · exact h c

/-- C17: every wire request that `convertToHyperswitchPayment` produces holds under
`currency` the lower-cased `req.Currency`; and lower-casing is idempotent, for an ASCII
currency code outright and for any currency when the Unicode lower-case table of the
runtime is idempotent: the request whose currency is already that wire currency
translates to a wire request with the same currency. -/
theorem wire_currency_is_lowercase (rt : GoRuntime) (cfg : Config) (r : PaymentRequest)
    (w : Entries) (h : convertToHyperswitchPayment rt cfg r = .ok w) :
    Entries.lookup w "currency" = some (.string (toLower rt r.Currency)) ∧
    ((isASCII r.Currency = true ∨
        ∀ c, toLowerRune rt (toLowerRune rt c) = toLowerRune rt c) →
      toLower rt (toLower rt r.Currency) = toLower rt r.Currency ∧
      ∃ w2, convertToHyperswitchPayment rt cfg { r with Currency := toLower rt r.Currency }
          = .ok w2 ∧
        Entries.lookup w2 "currency" = Entries.lookup w "currency") := by
  have hc : Entries.lookup w "currency" = some (.string (toLower rt r.Currency)) := by
    rw [convertToHyperswitchPayment_ok_lookup rt cfg r w "currency" h (by decide),
      wireRequestBase_lookup_currency]
  refine ⟨hc, fun hidem => ⟨toLower_idem rt r.Currency hidem, ?_⟩⟩
  have hret : r.OrderID = "" ∨ ∃ es, r.Metadata = .mk es := by
    by_cases ho : r.OrderID = ""
    · exact Or.inl ho
    · cases hm : r.Metadata with
      | nilMap =>
        rw [convertToHyperswitchPayment_nil_metadata rt cfg r ho hm] at h
        exact Except.noConfusion h
      | mk es => exact Or.inr ⟨es, rfl⟩
  obtain ⟨w2, hw2⟩ := convertToHyperswitchPayment_returns rt cfg
    { r with Currency := toLower rt r.Currency } hret
  refine ⟨w2, hw2, ?_⟩
  rw [convertToHyperswitchPayment_ok_lookup rt cfg _ w2 "currency" hw2 (by decide),
    wireRequestBase_lookup_currency, hc]
  simp only [toLower_idem rt r.Currency hidem]

/-- C17 (witness): the currency `USD` goes out as `usd`, and so does `usd`. -/
theorem wire_currency_is_lowercase_witness :
    ∃ w, convertToHyperswitchPayment exampleRuntime testConfig addressedRequest = .ok w ∧
      Entries.lookup w "currency" = some (.string "usd") ∧
      ∃ w2, convertToHyperswitchPayment exampleRuntime testConfig
          { addressedRequest with Currency := "usd" } = .ok w2 ∧
        Entries.lookup w2 "currency" = Entries.lookup w "currency" := by
  obtain ⟨w, hw⟩ := convertToHyperswitchPayment_returns exampleRuntime testConfig
    addressedRequest (Or.inr ⟨_, rfl⟩)
  have key := wire_currency_is_lowercase exampleRuntime testConfig addressedRequest w hw
  exact ⟨w, hw, key.1, (key.2 (Or.inl (by decide))).2⟩

theorem toUpperRune_ascii (rt : GoRuntime) (c : Char) (h : isASCIIRune c = true) :
    toUpperRune rt c = asciiToUpper (asciiToLower c) := by
  have hn : c.toNat < 128 := by simpa [isASCIIRune] using h
  have h1 := (asciiToUpper_asciiToLower_ofNat c.toNat hn).1
  rw [Char.ofNat_toNat] at h1
  simp [toUpperRune, h, h1]

theorem toUpper_ascii (rt : GoRuntime) (s : String) (h : isASCII s = true) :
    toUpper rt s = ⟨(s.data.map asciiToLower).map asciiToUpper⟩ := by
  unfold toUpper
  simp only [List.map_map]
  congr 1
  apply List.map_congr_left
  intro c hc
  have : isASCIIRune c = true := by
    unfold isASCII at h
    exact List.all_eq_true.mp h c hc
  simpa using toUpperRune_ascii rt c this

theorem toUpper_of_isUpperCode (rt : GoRuntime) (s : String) (h : isUpperCode s = true) :
    toUpper rt s = s := by
  unfold toUpper
  have hmap : s.data.map (toUpperRune rt) = s.data := by
    conv_rhs => rw [← List.map_id s.data]
    apply List.map_congr_left
    intro c hc
    unfold isUpperCode at h
    have hcc := List.all_eq_true.mp h c hc
    simp only [Bool.and_eq_true, Bool.not_eq_true', decide_eq_false_iff_not] at hcc
    simp [toUpperRune, asciiToUpper, hcc.1, hcc.2]
  rw [hmap]

/-- C18: for every wire response with a string under `currency`, the `Currency` of
`convertFromHyperswitchPayment` is that string upper-cased; two responses whose ASCII
currencies differ only in letter case give the same `Currency`; and a code that is
already upper-case is returned unchanged. -/
theorem response_currency_is_uppercase (rt : GoRuntime) (first second : WireMap)
    (userID orderID : String) (a b : String)
    (ha : GoMap.lookup first "currency" = some (.string a))
    (hb : GoMap.lookup second "currency" = some (.string b)) :
    (convertFromHyperswitchPayment rt first userID orderID).Currency = toUpper rt a ∧
    (isASCII a = true → isASCII b = true → sameUpToCase a b →
      (convertFromHyperswitchPayment rt first userID orderID).Currency =
        (convertFromHyperswitchPayment rt second userID orderID).Currency) ∧
    (isUpperCode a = true →
      (convertFromHyperswitchPayment rt first userID orderID).Currency = a) := by
  have h1 : (convertFromHyperswitchPayment rt first userID orderID).Currency = toUpper rt a := by
    rw [convertFromHyperswitchPayment_Currency]
    simp [getString, ha]
  have h2 : (convertFromHyperswitchPayment rt second userID orderID).Currency = toUpper rt b := by
    rw [convertFromHyperswitchPayment_Currency]
    simp [getString, hb]
  refine ⟨h1, ?_, ?_⟩
  · intro ha1 hb1 hsame
    rw [h1, h2, toUpper_ascii rt a ha1, toUpper_ascii rt b hb1]
    unfold sameUpToCase at hsame
    rw [hsame]
  · intro hup
    rw [h1, toUpper_of_isUpperCode rt a hup]

/-- C18 (witness): `usd` and `Usd` both come back as `USD`, and `USD` comes back
unchanged. -/
theorem response_currency_is_uppercase_witness :
    (convertFromHyperswitchPayment exampleRuntime (.mk [("currency", .string "usd")]) ""
      "").Currency = "USD" ∧
    (convertFromHyperswitchPayment exampleRuntime (.mk [("currency", .string "usd")]) ""
      "").Currency =
    (convertFromHyperswitchPayment exampleRuntime (.mk [("currency", .string "Usd")]) ""
      "").Currency ∧
    (convertFromHyperswitchPayment exampleRuntime (.mk [("currency", .string "USD")]) ""
      "").Currency = "USD" := by
  have k1 := response_currency_is_uppercase exampleRuntime
    (.mk [("currency", .string "usd")]) (.mk [("currency", .string "Usd")]) "" "" "usd" "Usd"
    rfl rfl
  have k2 := response_currency_is_uppercase exampleRuntime
    (.mk [("currency", .string "USD")]) (.mk [("currency", .string "USD")]) "" "" "USD" "USD"
    rfl rfl
  refine ⟨?_, k1.2.1 (by decide) (by decide) (by unfold sameUpToCase; decide),
    k2.2.2 (by decide)⟩
  rw [k1.1]
  decide

/-! ## The customer and billing blocks -/

theorem customerObject_lookup (userID : String) (ci : CustomerInfo) (key : String) :
    Entries.lookup (customerObject userID ci) key = expectedCustomerKey userID ci key := by
  unfold customerObject expectedCustomerKey
  by_cases hid : key = "id"
  · subst hid
    simp [Entries.lookup_set_self]
  · rw [Entries.lookup_set_ne _ _ _ _ (Ne.symm hid), if_neg hid]
    by_cases hn : ci.Name = "" <;> by_cases he : ci.Email = "" <;> by_cases hp : ci.Phone = "" <;>
      by_cases kn : key = "name" <;> by_cases ke : key = "email" <;>
      by_cases kp : key = "phone" <;>
      first
        | (subst kn; simp_all [Entries.set, Entries.lookup])
        | (subst ke; simp_all [Entries.set, Entries.lookup])
        | (subst kp; simp_all [Entries.set, Entries.lookup])
        | (have kn2 : ¬ "name" = key := fun h => kn h.symm
           have ke2 : ¬ "email" = key := fun h => ke h.symm
           have kp2 : ¬ "phone" = key := fun h => kp h.symm
           simp_all [Entries.set, Entries.lookup])

theorem wireRequestBase_lookup_customer (rt : GoRuntime) (cfg : Config) (r : PaymentRequest) :
    Entries.lookup (wireRequestBase rt cfg r) "customer" =
      some (.map (.mk (match r.CustomerInfo with
        | some ci => customerObject r.UserID ci
        | none => [("id", .string r.UserID)]))) := by
  unfold wireRequestBase
  by_cases hw : cfg.WebhookURL = "" <;> by_cases hr : r.ReturnURL = "" <;>
    cases hci : r.CustomerInfo with
    | none => simp [hw, hr, Entries.lookup_set_ne, Entries.lookup_set_self]
    | some ci =>
      cases ha : ci.Address <;>
        simp [hw, hr, ha, Entries.lookup_set_ne, Entries.lookup_set_self]

theorem wireRequestBase_lookup_billing (rt : GoRuntime) (cfg : Config) (r : PaymentRequest) :
    Entries.lookup (wireRequestBase rt cfg r) "billing" =
      match r.CustomerInfo with
      | some ci =>
        (match ci.Address with
         | some a => some (.map (.mk (billingObject a)))
         | none => none)
      | none => none := by
  unfold wireRequestBase
  by_cases hw : cfg.WebhookURL = "" <;> by_cases hr : r.ReturnURL = "" <;>
    cases hci : r.CustomerInfo with
    | none => simp [hw, hr, Entries.lookup_set_ne, Entries.lookup_set_self, Entries.lookup]
    | some ci =>
      cases ha : ci.Address <;>
        simp [hw, hr, ha, Entries.lookup_set_ne, Entries.lookup_set_self, Entries.lookup]

/-- C19: every wire request that `convertToHyperswitchPayment` produces has a `customer`
object. Without `CustomerInfo` it is exactly the one entry `id: UserID`; with
`CustomerInfo` it holds `id: UserID` and, each exactly when non-empty, `name`, `email`
and `phone` from `CustomerInfo`, and no other key. -/
theorem wire_customer_object (rt : GoRuntime) (cfg : Config) (r : PaymentRequest)
    (w : Entries) (h : convertToHyperswitchPayment rt cfg r = .ok w) :
    (r.CustomerInfo = none →
      Entries.lookup w "customer" = some (.map (.mk [("id", .string r.UserID)]))) ∧
    (∀ ci, r.CustomerInfo = some ci →
      ∃ customer, Entries.lookup w "customer" = some (.map (.mk customer)) ∧
        ∀ key, Entries.lookup customer key = expectedCustomerKey r.UserID ci key) := by
  have hl := convertToHyperswitchPayment_ok_lookup rt cfg r w "customer" h (by decide)
  rw [wireRequestBase_lookup_customer] at hl
  constructor
  · intro hnone
    rw [hl, hnone]
  · intro ci hsome
    refine ⟨customerObject r.UserID ci, ?_, customerObject_lookup r.UserID ci⟩
    rw [hl, hsome]

/-- C19 (witness): a request whose customer has a name and a phone and no email. -/
theorem wire_customer_object_witness :
    ∃ w, convertToHyperswitchPayment exampleRuntime testConfig addressedRequest = .ok w ∧
      ∃ customer, Entries.lookup w "customer" = some (.map (.mk customer)) ∧
        Entries.lookup customer "id" = some (.string "test_user_123") ∧
        Entries.lookup customer "name" = some (.string "John Doe") ∧
        Entries.lookup customer "email" = none ∧
        Entries.lookup customer "phone" = some (.string "+1234567890") := by
  obtain ⟨w, hw⟩ := convertToHyperswitchPayment_returns exampleRuntime testConfig
    addressedRequest (Or.inr ⟨_, rfl⟩)
  obtain ⟨customer, hc, hk⟩ :=
    (wire_customer_object exampleRuntime testConfig addressedRequest w hw).2 _ rfl
  exact ⟨w, hw, customer, hc, by rw [hk]; rfl, by rw [hk]; rfl, by rw [hk]; rfl,
    by rw [hk]; rfl⟩

/-- C20: every wire request that `convertToHyperswitchPayment` produces for a request
whose `CustomerInfo` has an `Address` holds under `billing` the one entry `address`, an
object with exactly the six entries `line1`, `line2`, `city`, `state`, `zip`, `country`
from the address; and when `CustomerInfo` or its `Address` is absent the wire request has
no `billing` key. -/
theorem wire_billing_block (rt : GoRuntime) (cfg : Config) (r : PaymentRequest)
    (w : Entries) (h : convertToHyperswitchPayment rt cfg r = .ok w) :
    (∀ ci a, r.CustomerInfo = some ci → ci.Address = some a →
      Entries.lookup w "billing" = some (.map (.mk [("address", .map (.mk [
        ("line1", .string a.Line1),
        ("line2", .string a.Line2),
        ("city", .string a.City),
        ("state", .string a.State),
        ("zip", .string a.Zip),
        ("country", .string a.Country)]))]))) ∧
    ((r.CustomerInfo = none ∨ ∃ ci, r.CustomerInfo = some ci ∧ ci.Address = none) →
      Entries.lookup w "billing" = none) := by
  have hl := convertToHyperswitchPayment_ok_lookup rt cfg r w "billing" h (by decide)
  rw [wireRequestBase_lookup_billing] at hl
  constructor
  · intro ci a hci ha
    rw [hl, hci]
    simp only [ha]
    rfl
  · rintro (hnone | ⟨ci, hci, ha⟩)
    · rw [hl, hnone]
    · rw [hl, hci]
      simp only [ha]

/-- C20 (witness): a request with an address, and the same request without customer
info. -/
theorem wire_billing_block_witness :
    (∃ w, convertToHyperswitchPayment exampleRuntime testConfig addressedRequest = .ok w ∧
      Entries.lookup w "billing" = some (.map (.mk [("address", .map (.mk [
        ("line1", .string "1 Main St"),
        ("line2", .string ""),
        ("city", .string "Springfield"),
        ("state", .string "IL"),
        ("zip", .string "62701"),
        ("country", .string "US")]))]))) ∧
    (∃ w, convertToHyperswitchPayment exampleRuntime testConfig
        { addressedRequest with CustomerInfo := none } = .ok w ∧
      Entries.lookup w "billing" = none) := by
  obtain ⟨w, hw⟩ := convertToHyperswitchPayment_returns exampleRuntime testConfig
    addressedRequest (Or.inr ⟨_, rfl⟩)
  obtain ⟨w2, hw2⟩ := convertToHyperswitchPayment_returns exampleRuntime testConfig
    { addressedRequest with CustomerInfo := none } (Or.inr ⟨_, rfl⟩)
  exact ⟨⟨w, hw,
      (wire_billing_block exampleRuntime testConfig addressedRequest w hw).1 _ _ rfl rfl⟩,
    ⟨w2, hw2, (wire_billing_block exampleRuntime testConfig _ w2 hw2).2 (Or.inl rfl)⟩⟩

/-! ## Inbound translation: the remaining fields -/

theorem convertFromHyperswitchPayment_PaymentID (rt : GoRuntime) (resp : WireMap)
    (userID orderID : String) :
    (convertFromHyperswitchPayment rt resp userID orderID).PaymentID =
      getString resp "payment_id" := by
  unfold convertFromHyperswitchPayment extractNextAction extractMetadata
  repeat' split
  all_goals rfl

theorem convertFromHyperswitchPayment_NextAction (rt : GoRuntime) (resp : WireMap)
    (userID orderID : String) :
    (convertFromHyperswitchPayment rt resp userID orderID).NextAction = wireNextAction resp := by
  unfold convertFromHyperswitchPayment extractNextAction extractMetadata wireNextAction
    GoMap.index
  cases h : GoMap.lookup resp "next_action" with
  | none =>
    simp only [Option.getD_none]
    repeat' split
    all_goals rfl
  | some v =>
    cases v <;> simp only [Option.getD_some] <;> repeat' split
    all_goals rfl

theorem convertFromHyperswitchPayment_Metadata (rt : GoRuntime) (resp : WireMap)
    (userID orderID : String) :
    (convertFromHyperswitchPayment rt resp userID orderID).Metadata =
      wireResponseMetadata resp := by
  unfold convertFromHyperswitchPayment extractNextAction extractMetadata wireResponseMetadata
    GoMap.index
  cases h : GoMap.lookup resp "metadata" with
  | none =>
    simp only [Option.getD_none]
    repeat' split
    all_goals rfl
  | some v =>
    cases v <;> simp only [Option.getD_some] <;> repeat' split
    all_goals rfl

theorem convertFromHyperswitchPayment_Status (rt : GoRuntime) (resp : WireMap)
    (userID orderID : String) :
    (convertFromHyperswitchPayment rt resp userID orderID).Status =
      getString resp "status" := by
  unfold convertFromHyperswitchPayment extractNextAction extractMetadata
  repeat' split
  all_goals rfl

theorem convertFromHyperswitchPayment_Method (rt : GoRuntime) (resp : WireMap)
    (userID orderID : String) :
    (convertFromHyperswitchPayment rt resp userID orderID).Method =
      getString resp "payment_method" := by
  unfold convertFromHyperswitchPayment extractNextAction extractMetadata
  repeat' split
  all_goals rfl

theorem convertFromHyperswitchPayment_Description (rt : GoRuntime) (resp : WireMap)
    (userID orderID : String) :
    (convertFromHyperswitchPayment rt resp userID orderID).Description =
      getString resp "description" := by
  unfold convertFromHyperswitchPayment extractNextAction extractMetadata
  repeat' split
  all_goals rfl

theorem convertFromHyperswitchPayment_ClientSecret (rt : GoRuntime) (resp : WireMap)
    (userID orderID : String) :
    (convertFromHyperswitchPayment rt resp userID orderID).ClientSecret =
      getString resp "client_secret" := by
  unfold convertFromHyperswitchPayment extractNextAction extractMetadata
  repeat' split
  all_goals rfl

theorem convertFromHyperswitchPayment_ErrorMessage (rt : GoRuntime) (resp : WireMap)
    (userID orderID : String) :
    (convertFromHyperswitchPayment rt resp userID orderID).ErrorMessage =
      getString resp "error_message" := by
  unfold convertFromHyperswitchPayment extractNextAction extractMetadata
  repeat' split
  all_goals rfl

theorem convertFromHyperswitchPayment_ErrorCode (rt : GoRuntime) (resp : WireMap)
    (userID orderID : String) :
    (convertFromHyperswitchPayment rt resp userID orderID).ErrorCode =
      getString resp "error_code" := by
  unfold convertFromHyperswitchPayment extractNextAction extractMetadata
  repeat' split
  all_goals rfl

theorem convertFromHyperswitchPayment_CreatedAt (rt : GoRuntime) (resp : WireMap)
    (userID orderID : String) :
    (convertFromHyperswitchPayment rt resp userID orderID).CreatedAt =
      parseTimestamp rt resp "created" Time.zero := by
  unfold convertFromHyperswitchPayment extractNextAction extractMetadata
  repeat' split
  all_goals rfl

theorem convertFromHyperswitchPayment_UpdatedAt (rt : GoRuntime) (resp : WireMap)
    (userID orderID : String) :
    (convertFromHyperswitchPayment rt resp userID orderID).UpdatedAt =
      parseTimestamp rt resp "last_modified" Time.zero := by
  unfold convertFromHyperswitchPayment extractNextAction extractMetadata
  repeat' split
  all_goals rfl

theorem getString_of_absent (data : WireMap) (key : String)
    (h : GoMap.lookup data key = none) : getString data key = "" := by
  simp [getString, h]

theorem getString_of_string (data : WireMap) (key s : String)
    (h : GoMap.lookup data key = some (.string s)) : getString data key = s := by
  simp [getString, h]

theorem parseTimestamp_of_absent (rt : GoRuntime) (data : WireMap) (key : String)
    (h : GoMap.lookup data key = none) : parseTimestamp rt data key Time.zero = Time.zero := by
  simp [parseTimestamp, getString_of_absent data key h]

/-- C22: `convertFromHyperswitchPayment` is a total function, so it returns a response
for every wire map, runtime and pair of fallbacks; and each field whose key is absent
has its zero value: the strings are empty, the amount is 0, there is no next action, the
metadata is the nil map and the timestamps are the zero time, while without a `metadata`
key `UserID` and `OrderID` are the supplied fallbacks. -/
theorem convertFromHyperswitchPayment_absent_keys (rt : GoRuntime) (resp : WireMap)
    (userID orderID : String) :
    (GoMap.lookup resp "payment_id" = none →
      (convertFromHyperswitchPayment rt resp userID orderID).PaymentID = "") ∧
    (GoMap.lookup resp "status" = none →
      (convertFromHyperswitchPayment rt resp userID orderID).Status = "") ∧
    (GoMap.lookup resp "amount" = none →
      (convertFromHyperswitchPayment rt resp userID orderID).Amount = 0) ∧
    (GoMap.lookup resp "currency" = none →
      (convertFromHyperswitchPayment rt resp userID orderID).Currency = "") ∧
    (GoMap.lookup resp "payment_method" = none →
      (convertFromHyperswitchPayment rt resp userID orderID).Method = "") ∧
    (GoMap.lookup resp "description" = none →
      (convertFromHyperswitchPayment rt resp userID orderID).Description = "") ∧
    (GoMap.lookup resp "client_secret" = none →
      (convertFromHyperswitchPayment rt resp userID orderID).ClientSecret = "") ∧
    (GoMap.lookup resp "error_message" = none →
      (convertFromHyperswitchPayment rt resp userID orderID).ErrorMessage = "") ∧
    (GoMap.lookup resp "error_code" = none →
      (convertFromHyperswitchPayment rt resp userID orderID).ErrorCode = "") ∧
    (GoMap.lookup resp "next_action" = none →
      (convertFromHyperswitchPayment rt resp userID orderID).NextAction = none) ∧
    (GoMap.lookup resp "created" = none →
      (convertFromHyperswitchPayment rt resp userID orderID).CreatedAt = Time.zero) ∧
    (GoMap.lookup resp "last_modified" = none →
      (convertFromHyperswitchPayment rt resp userID orderID).UpdatedAt = Time.zero) ∧
    (GoMap.lookup resp "metadata" = none →
      (convertFromHyperswitchPayment rt resp userID orderID).Metadata = .nilMap ∧
      (convertFromHyperswitchPayment rt resp userID orderID).UserID = userID ∧
      (convertFromHyperswitchPayment rt resp userID orderID).OrderID = orderID) := by
  refine ⟨?_, ?_, ?_, ?_, ?_, ?_, ?_, ?_, ?_, ?_, ?_, ?_, ?_⟩
  · intro h
    rw [convertFromHyperswitchPayment_PaymentID, getString_of_absent _ _ h]
  · intro h
    rw [convertFromHyperswitchPayment_Status, getString_of_absent _ _ h]
  · intro h
    rw [convertFromHyperswitchPayment_Amount]
    simp [getInt64, h]
  · intro h
    rw [convertFromHyperswitchPayment_Currency, getString_of_absent _ _ h]
    rfl
  · intro h
    rw [convertFromHyperswitchPayment_Method, getString_of_absent _ _ h]
  · intro h
    rw [convertFromHyperswitchPayment_Description, getString_of_absent _ _ h]
  · intro h
    rw [convertFromHyperswitchPayment_ClientSecret, getString_of_absent _ _ h]
  · intro h
    rw [convertFromHyperswitchPayment_ErrorMessage, getString_of_absent _ _ h]
  · intro h
    rw [convertFromHyperswitchPayment_ErrorCode, getString_of_absent _ _ h]
  · intro h
    rw [convertFromHyperswitchPayment_NextAction]
    simp [wireNextAction, h]
  · intro h
    rw [convertFromHyperswitchPayment_CreatedAt, parseTimestamp_of_absent _ _ _ h]
  · intro h
    rw [convertFromHyperswitchPayment_UpdatedAt, parseTimestamp_of_absent _ _ _ h]
  · intro h
    rw [convertFromHyperswitchPayment_Metadata, convertFromHyperswitchPayment_UserID,
      convertFromHyperswitchPayment_OrderID]
    by_cases hu : userID = "" <;> by_cases ho : orderID = "" <;>
      simp [wireResponseMetadata, storedCorrelation, resolveCorrelation, h, hu, ho]

/-- The empty wire map translates to the zero response with the fallbacks. -/
theorem convertFromHyperswitchPayment_empty (rt : GoRuntime) (userID orderID : String) :
    convertFromHyperswitchPayment rt (.mk []) userID orderID =
      { PaymentID := "", Status := "", Amount := 0, Currency := "", Method := ""
        UserID := userID, OrderID := orderID, Description := "", ClientSecret := ""
        NextAction := none, ErrorMessage := "", ErrorCode := "", CreatedAt := Time.zero
        UpdatedAt := Time.zero, Metadata := .nilMap } := by
  rfl

/-- C25: for every wire response, each of `PaymentID`, `Status`, `Method`,
`Description`, `ClientSecret`, `ErrorCode` and `ErrorMessage` is the string the wire
holds under its key, unchanged; and `NextAction` is present exactly when the wire holds
an object under `next_action`, with the `type`, `redirect_to_url` and `data` of that
object. -/
theorem convertFromHyperswitchPayment_verbatim (rt : GoRuntime) (resp : WireMap)
    (userID orderID : String) :
    (∀ s, GoMap.lookup resp "payment_id" = some (.string s) →
      (convertFromHyperswitchPayment rt resp userID orderID).PaymentID = s) ∧
    (∀ s, GoMap.lookup resp "status" = some (.string s) →
      (convertFromHyperswitchPayment rt resp userID orderID).Status = s) ∧
    (∀ s, GoMap.lookup resp "payment_method" = some (.string s) →
      (convertFromHyperswitchPayment rt resp userID orderID).Method = s) ∧
    (∀ s, GoMap.lookup resp "description" = some (.string s) →
      (convertFromHyperswitchPayment rt resp userID orderID).Description = s) ∧
    (∀ s, GoMap.lookup resp "client_secret" = some (.string s) →
      (convertFromHyperswitchPayment rt resp userID orderID).ClientSecret = s) ∧
    (∀ s, GoMap.lookup resp "error_code" = some (.string s) →
      (convertFromHyperswitchPayment rt resp userID orderID).ErrorCode = s) ∧
    (∀ s, GoMap.lookup resp "error_message" = some (.string s) →
      (convertFromHyperswitchPayment rt resp userID orderID).ErrorMessage = s) ∧
    (convertFromHyperswitchPayment rt resp userID orderID).NextAction = wireNextAction resp := by
  refine ⟨?_, ?_, ?_, ?_, ?_, ?_, ?_, convertFromHyperswitchPayment_NextAction rt resp _ _⟩
  · intro s h
    rw [convertFromHyperswitchPayment_PaymentID, getString_of_string _ _ s h]
  · intro s h
    rw [convertFromHyperswitchPayment_Status, getString_of_string _ _ s h]
  · intro s h
    rw [convertFromHyperswitchPayment_Method, getString_of_string _ _ s h]
  · intro s h
    rw [convertFromHyperswitchPayment_Description, getString_of_string _ _ s h]
  · intro s h
    rw [convertFromHyperswitchPayment_ClientSecret, getString_of_string _ _ s h]
  · intro s h
    rw [convertFromHyperswitchPayment_ErrorCode, getString_of_string _ _ s h]
  · intro s h
    rw [convertFromHyperswitchPayment_ErrorMessage, getString_of_string _ _ s h]

/-- The wire payment id `test_payment_123` comes back as `test_payment_123`. -/
theorem convertFromHyperswitchPayment_test_payment_id :
    (convertFromHyperswitchPayment exampleRuntime
      (.mk [("payment_id", .string "test_payment_123"), ("status", .string "succeeded")])
      "" "").PaymentID = "test_payment_123" := by
  decide

/-! ## Timestamps -/

theorem Entries.lookup_erase_ne (es : Entries) (key other : String) (h : other ≠ key) :
    Entries.lookup (Entries.erase es key) other = Entries.lookup es other := by
  induction es with
  | nil => rfl
  | cons e rest ih =>
    obtain ⟨k, v⟩ := e
    by_cases hk : k = key
    · subst hk
      have hko : ¬ k = other := fun hh => h hh.symm
      simp [Entries.erase, Entries.lookup, ih, hko]
    · by_cases hko : k = other
      · subst hko
        simp [Entries.erase, hk, Entries.lookup]
      · simp [Entries.erase, hk, Entries.lookup, hko, ih]

theorem Entries.lookup_erase_self (es : Entries) (key : String) :
    Entries.lookup (Entries.erase es key) key = none := by
  induction es with
  | nil => rfl
  | cons e rest ih =>
    obtain ⟨k, v⟩ := e
    by_cases hk : k = key
    · simp [Entries.erase, hk, ih]
    · simp [Entries.erase, hk, Entries.lookup, ih]

theorem GoMap.lookup_erased_other (data : WireMap) (key other : String) (h : other ≠ key) :
    GoMap.lookup (GoMap.erase data key) other = GoMap.lookup data other := by
  cases data with
  | nilMap => rfl
  | mk es => exact Entries.lookup_erase_ne es key other h

theorem GoMap.lookup_erased_key (data : WireMap) (key : String) :
    GoMap.lookup (GoMap.erase data key) key = none := by
  cases data with
  | nilMap => rfl
  | mk es => exact Entries.lookup_erase_self es key

theorem PaymentResponse.eq_of_fields (a b : PaymentResponse)
    (h1 : a.PaymentID = b.PaymentID) (h2 : a.Status = b.Status) (h3 : a.Amount = b.Amount)
    (h4 : a.Currency = b.Currency) (h5 : a.Method = b.Method) (h6 : a.UserID = b.UserID)
    (h7 : a.OrderID = b.OrderID) (h8 : a.Description = b.Description)
    (h9 : a.ClientSecret = b.ClientSecret) (h10 : a.NextAction = b.NextAction)
    (h11 : a.ErrorMessage = b.ErrorMessage) (h12 : a.ErrorCode = b.ErrorCode)
    (h13 : a.CreatedAt = b.CreatedAt) (h14 : a.UpdatedAt = b.UpdatedAt)
    (h15 : a.Metadata = b.Metadata) : a = b := by
  cases a
  cases b
  simp_all

/-- Two wire maps that agree on every key but `skip` translate to responses that agree
on every field not read from `skip`. -/
theorem convertFromHyperswitchPayment_fields_agree (rt : GoRuntime) (a b : WireMap)
    (userID orderID skip : String)
    (h : ∀ key, key ≠ skip → GoMap.lookup a key = GoMap.lookup b key) :
    ("payment_id" ≠ skip → (convertFromHyperswitchPayment rt a userID orderID).PaymentID =
      (convertFromHyperswitchPayment rt b userID orderID).PaymentID) ∧
    ("status" ≠ skip → (convertFromHyperswitchPayment rt a userID orderID).Status =
      (convertFromHyperswitchPayment rt b userID orderID).Status) ∧
    ("amount" ≠ skip → (convertFromHyperswitchPayment rt a userID orderID).Amount =
      (convertFromHyperswitchPayment rt b userID orderID).Amount) ∧
    ("currency" ≠ skip → (convertFromHyperswitchPayment rt a userID orderID).Currency =
      (convertFromHyperswitchPayment rt b userID orderID).Currency) ∧
    ("payment_method" ≠ skip → (convertFromHyperswitchPayment rt a userID orderID).Method =
      (convertFromHyperswitchPayment rt b userID orderID).Method) ∧
    ("metadata" ≠ skip → (convertFromHyperswitchPayment rt a userID orderID).UserID =
      (convertFromHyperswitchPayment rt b userID orderID).UserID) ∧
    ("metadata" ≠ skip → (convertFromHyperswitchPayment rt a userID orderID).OrderID =
      (convertFromHyperswitchPayment rt b userID orderID).OrderID) ∧
    ("description" ≠ skip → (convertFromHyperswitchPayment rt a userID orderID).Description =
      (convertFromHyperswitchPayment rt b userID orderID).Description) ∧
    ("client_secret" ≠ skip → (convertFromHyperswitchPayment rt a userID orderID).ClientSecret =
      (convertFromHyperswitchPayment rt b userID orderID).ClientSecret) ∧
    ("next_action" ≠ skip → (convertFromHyperswitchPayment rt a userID orderID).NextAction =
      (convertFromHyperswitchPayment rt b userID orderID).NextAction) ∧
    ("error_message" ≠ skip → (convertFromHyperswitchPayment rt a userID orderID).ErrorMessage =
      (convertFromHyperswitchPayment rt b userID orderID).ErrorMessage) ∧
    ("error_code" ≠ skip → (convertFromHyperswitchPayment rt a userID orderID).ErrorCode =
      (convertFromHyperswitchPayment rt b userID orderID).ErrorCode) ∧
    ("created" ≠ skip → (convertFromHyperswitchPayment rt a userID orderID).CreatedAt =
      (convertFromHyperswitchPayment rt b userID orderID).CreatedAt) ∧
    ("last_modified" ≠ skip → (convertFromHyperswitchPayment rt a userID orderID).UpdatedAt =
      (convertFromHyperswitchPayment rt b userID orderID).UpdatedAt) ∧
    ("metadata" ≠ skip → (convertFromHyperswitchPayment rt a userID orderID).Metadata =
      (convertFromHyperswitchPayment rt b userID orderID).Metadata) := by
  have hs : ∀ key, key ≠ skip → getString a key = getString b key := by
    intro key hk
    unfold getString
    rw [h key hk]
  refine ⟨?_, ?_, ?_, ?_, ?_, ?_, ?_, ?_, ?_, ?_, ?_, ?_, ?_, ?_, ?_⟩
  · intro hk
    simp only [convertFromHyperswitchPayment_PaymentID, hs _ hk]
  · intro hk
    simp only [convertFromHyperswitchPayment_Status, hs _ hk]
  · intro hk
    simp only [convertFromHyperswitchPayment_Amount, getInt64, h _ hk]
  · intro hk
    simp only [convertFromHyperswitchPayment_Currency, hs _ hk]
  · intro hk
    simp only [convertFromHyperswitchPayment_Method, hs _ hk]
  · intro hk
    simp only [convertFromHyperswitchPayment_UserID, storedCorrelation, h _ hk]
  · intro hk
    simp only [convertFromHyperswitchPayment_OrderID, storedCorrelation, h _ hk]
  · intro hk
    simp only [convertFromHyperswitchPayment_Description, hs _ hk]
  · intro hk
    simp only [convertFromHyperswitchPayment_ClientSecret, hs _ hk]
  · intro hk
    simp only [convertFromHyperswitchPayment_NextAction, wireNextAction, h _ hk]
  · intro hk
    simp only [convertFromHyperswitchPayment_ErrorMessage, hs _ hk]
  · intro hk
    simp only [convertFromHyperswitchPayment_ErrorCode, hs _ hk]
  · intro hk
    simp only [convertFromHyperswitchPayment_CreatedAt, parseTimestamp, hs _ hk]
  · intro hk
    simp only [convertFromHyperswitchPayment_UpdatedAt, parseTimestamp, hs _ hk]
  · intro hk
    simp only [convertFromHyperswitchPayment_Metadata, wireResponseMetadata, h _ hk]

theorem parseTimestamp_of_givesNoInstant (rt : GoRuntime) (data : WireMap) (key : String)
    (h : givesNoInstant rt (GoMap.lookup data key)) :
    parseTimestamp rt data key Time.zero = Time.zero := by
  unfold parseTimestamp getString
  cases hv : GoMap.lookup data key with
  | none => simp
  | some v =>
    rw [hv] at h
    cases v with
    | string s =>
      have hp : rt.parseRFC3339 s = none := h
      by_cases hs : s = "" <;> simp [hs, hp]
    | _ => simp

theorem parseTimestamp_of_parsed (rt : GoRuntime) (data : WireMap) (key s : String) (t : Time)
    (hempty : rt.parseRFC3339 "" = none)
    (hv : GoMap.lookup data key = some (.string s)) (hp : rt.parseRFC3339 s = some t) :
    parseTimestamp rt data key Time.zero = t := by
  have hs : s ≠ "" := by
    intro h0
    rw [h0, hempty] at hp
    exact Option.noConfusion hp
  simp [parseTimestamp, getString, hv, hs, hp]

theorem convertFromHyperswitchPayment_erase_created (rt : GoRuntime) (resp : WireMap)
    (userID orderID : String) (t : Time)
    (ht : (convertFromHyperswitchPayment rt resp userID orderID).CreatedAt = t) :
    convertFromHyperswitchPayment rt resp userID orderID =
      { convertFromHyperswitchPayment rt (GoMap.erase resp "created") userID orderID with
        CreatedAt := t } := by
  obtain ⟨h1, h2, h3, h4, h5, h6, h7, h8, h9, h10, h11, h12, _, h14, h15⟩ :=
    convertFromHyperswitchPayment_fields_agree rt resp (GoMap.erase resp "created")
      userID orderID "created"
      (fun key hk => (GoMap.lookup_erased_other resp "created" key hk).symm)
  exact PaymentResponse.eq_of_fields _ _ (h1 (by decide)) (h2 (by decide)) (h3 (by decide))
    (h4 (by decide)) (h5 (by decide)) (h6 (by decide)) (h7 (by decide)) (h8 (by decide))
    (h9 (by decide)) (h10 (by decide)) (h11 (by decide)) (h12 (by decide)) ht
    (h14 (by decide)) (h15 (by decide))

theorem convertFromHyperswitchPayment_erase_last_modified (rt : GoRuntime) (resp : WireMap)
    (userID orderID : String) (t : Time)
    (ht : (convertFromHyperswitchPayment rt resp userID orderID).UpdatedAt = t) :
    convertFromHyperswitchPayment rt resp userID orderID =
      { convertFromHyperswitchPayment rt (GoMap.erase resp "last_modified") userID orderID with
        UpdatedAt := t } := by
  obtain ⟨h1, h2, h3, h4, h5, h6, h7, h8, h9, h10, h11, h12, h13, _, h15⟩ :=
    convertFromHyperswitchPayment_fields_agree rt resp (GoMap.erase resp "last_modified")
      userID orderID "last_modified"
      (fun key hk => (GoMap.lookup_erased_other resp "last_modified" key hk).symm)
  exact PaymentResponse.eq_of_fields _ _ (h1 (by decide)) (h2 (by decide)) (h3 (by decide))
    (h4 (by decide)) (h5 (by decide)) (h6 (by decide)) (h7 (by decide)) (h8 (by decide))
    (h9 (by decide)) (h10 (by decide)) (h11 (by decide)) (h12 (by decide)) (h13 (by decide))
    ht (h15 (by decide))

theorem PaymentResponse.with_CreatedAt_self (p : PaymentResponse) (h : p.CreatedAt = Time.zero) :
    { p with CreatedAt := Time.zero } = p := by
  cases p
  simp_all

theorem PaymentResponse.with_UpdatedAt_self (p : PaymentResponse) (h : p.UpdatedAt = Time.zero) :
    { p with UpdatedAt := Time.zero } = p := by
  cases p
  simp_all

/-- C23: for every wire response (with a runtime whose RFC 3339 parser rejects the empty
string, as `time.Parse` does): when the value under `created` is absent, not a string, or
a string that does not parse, `CreatedAt` is the zero time and the whole response equals
the translation of the wire map without that key; when it is a string that parses, the
response is that translation with `CreatedAt` set to the parsed instant. The same holds
for `last_modified` and `UpdatedAt`. The translation is a total function. -/
theorem timestamps_best_effort (rt : GoRuntime) (resp : WireMap) (userID orderID : String)
    (hempty : rt.parseRFC3339 "" = none) :
    (givesNoInstant rt (GoMap.lookup resp "created") →
      (convertFromHyperswitchPayment rt resp userID orderID).CreatedAt = Time.zero ∧
      convertFromHyperswitchPayment rt resp userID orderID =
        convertFromHyperswitchPayment rt (GoMap.erase resp "created") userID orderID) ∧
    (∀ s t, GoMap.lookup resp "created" = some (.string s) → rt.parseRFC3339 s = some t →
      convertFromHyperswitchPayment rt resp userID orderID =
        { convertFromHyperswitchPayment rt (GoMap.erase resp "created") userID orderID with
          CreatedAt := t }) ∧
    (givesNoInstant rt (GoMap.lookup resp "last_modified") →
      (convertFromHyperswitchPayment rt resp userID orderID).UpdatedAt = Time.zero ∧
      convertFromHyperswitchPayment rt resp userID orderID =
        convertFromHyperswitchPayment rt (GoMap.erase resp "last_modified") userID orderID) ∧
    (∀ s t, GoMap.lookup resp "last_modified" = some (.string s) →
      rt.parseRFC3339 s = some t →
      convertFromHyperswitchPayment rt resp userID orderID =
        { convertFromHyperswitchPayment rt (GoMap.erase resp "last_modified") userID orderID
          with UpdatedAt := t }) := by
  refine ⟨?_, ?_, ?_, ?_⟩
  · intro h
    have hz : (convertFromHyperswitchPayment rt resp userID orderID).CreatedAt = Time.zero := by
      rw [convertFromHyperswitchPayment_CreatedAt, parseTimestamp_of_givesNoInstant rt _ _ h]
    have he : (convertFromHyperswitchPayment rt (GoMap.erase resp "created") userID
        orderID).CreatedAt = Time.zero := by
      rw [convertFromHyperswitchPayment_CreatedAt,
        parseTimestamp_of_absent rt _ _ (GoMap.lookup_erased_key resp "created")]
    refine ⟨hz, ?_⟩
    rw [convertFromHyperswitchPayment_erase_created rt resp userID orderID Time.zero hz]
    exact PaymentResponse.with_CreatedAt_self _ he
  · intro s t hv hp
    apply convertFromHyperswitchPayment_erase_created
    rw [convertFromHyperswitchPayment_CreatedAt,
      parseTimestamp_of_parsed rt resp "created" s t hempty hv hp]
  · intro h
    have hz : (convertFromHyperswitchPayment rt resp userID orderID).UpdatedAt = Time.zero := by
      rw [convertFromHyperswitchPayment_UpdatedAt, parseTimestamp_of_givesNoInstant rt _ _ h]
    have he : (convertFromHyperswitchPayment rt (GoMap.erase resp "last_modified") userID
        orderID).UpdatedAt = Time.zero := by
      rw [convertFromHyperswitchPayment_UpdatedAt,
        parseTimestamp_of_absent rt _ _ (GoMap.lookup_erased_key resp "last_modified")]
    refine ⟨hz, ?_⟩
    rw [convertFromHyperswitchPayment_erase_last_modified rt resp userID orderID Time.zero hz]
    exact PaymentResponse.with_UpdatedAt_self _ he
  · intro s t hv hp
    apply convertFromHyperswitchPayment_erase_last_modified
    rw [convertFromHyperswitchPayment_UpdatedAt,
      parseTimestamp_of_parsed rt resp "last_modified" s t hempty hv hp]

/-- C23 (witness): the scenario response, whose `created` parses and which has no
`last_modified`. -/
theorem timestamps_best_effort_witness :
    exampleRuntime.parseRFC3339 "" = none ∧
    (convertFromHyperswitchPayment exampleRuntime scenarioWireResponse "" "").CreatedAt =
      ⟨63839664000, 0, 0⟩ ∧
    (convertFromHyperswitchPayment exampleRuntime scenarioWireResponse "" "").UpdatedAt =
      Time.zero := by
  have key := timestamps_best_effort exampleRuntime scenarioWireResponse "" "" (by decide)
  refine ⟨by decide, ?_, (key.2.2.1 (by trivial)).1⟩
  rw [key.2.1 "2024-01-01T00:00:00Z" ⟨63839664000, 0, 0⟩ rfl (by decide)]

/-! ## Optional fields of the wire request -/

theorem wireRequestBase_lookup_return_url (rt : GoRuntime) (cfg : Config) (r : PaymentRequest) :
    Entries.lookup (wireRequestBase rt cfg r) "return_url" =
      if r.ReturnURL ≠ "" then some (.string r.ReturnURL) else none := by
  unfold wireRequestBase
  by_cases hw : cfg.WebhookURL = "" <;> by_cases hr : r.ReturnURL = "" <;>
    cases hci : r.CustomerInfo with
    | none => simp [hw, hr, Entries.lookup_set_ne, Entries.lookup_set_self, Entries.lookup]
    | some ci =>
      cases ha : ci.Address <;>
        simp [hw, hr, ha, Entries.lookup_set_ne, Entries.lookup_set_self, Entries.lookup]

theorem wireRequestBase_lookup_webhook_url (rt : GoRuntime) (cfg : Config)
    (r : PaymentRequest) :
    Entries.lookup (wireRequestBase rt cfg r) "webhook_url" =
      if cfg.WebhookURL ≠ "" then some (.string cfg.WebhookURL) else none := by
  unfold wireRequestBase
  by_cases hw : cfg.WebhookURL = "" <;> by_cases hr : r.ReturnURL = "" <;>
    cases hci : r.CustomerInfo with
    | none => simp [hw, hr, Entries.lookup_set_ne, Entries.lookup_set_self, Entries.lookup]
    | some ci =>
      cases ha : ci.Address <;>
        simp [hw, hr, ha, Entries.lookup_set_ne, Entries.lookup_set_self, Entries.lookup]

theorem wireRequestBase_lookup_description (rt : GoRuntime) (cfg : Config)
    (r : PaymentRequest) :
    Entries.lookup (wireRequestBase rt cfg r) "description" = some (.string r.Description) := by
  rw [wireRequestBase_lookup rt cfg r "description" (by decide) (by decide) (by decide)
    (by decide)]
  simp [Entries.lookup]

/-- C21 (counterexample): the request without order id has an empty description, and
its wire request still carries the `description` key, with the empty string. -/
theorem empty_description_is_sent :
    noOrderRequest.Description = "" ∧
    ¬ OmitsEmptyOptionals exampleRuntime testConfig noOrderRequest := by
  refine ⟨rfl, ?_⟩
  intro h
  have hd := (h _ (convertToHyperswitchPayment_no_order exampleRuntime testConfig
    noOrderRequest rfl)).2.2
  rw [wireRequestBase_lookup_description] at hd
  exact (hd.mp rfl) rfl

/-- C21 (amended): every wire request that `convertToHyperswitchPayment` produces holds
`return_url` exactly when `req.ReturnURL` is non-empty and `webhook_url` exactly when the
configured webhook URL is non-empty, each with that value, and always holds
`description` with `req.Description`, also when that is empty. -/
theorem wire_optional_fields (rt : GoRuntime) (cfg : Config) (r : PaymentRequest)
    (w : Entries) (h : convertToHyperswitchPayment rt cfg r = .ok w) :
    Entries.lookup w "return_url" =
      (if r.ReturnURL ≠ "" then some (.string r.ReturnURL) else none) ∧
    Entries.lookup w "webhook_url" =
      (if cfg.WebhookURL ≠ "" then some (.string cfg.WebhookURL) else none) ∧
    Entries.lookup w "description" = some (.string r.Description) := by
  refine ⟨?_, ?_, ?_⟩
  · rw [convertToHyperswitchPayment_ok_lookup rt cfg r w "return_url" h (by decide),
      wireRequestBase_lookup_return_url]
  · rw [convertToHyperswitchPayment_ok_lookup rt cfg r w "webhook_url" h (by decide),
      wireRequestBase_lookup_webhook_url]
  · rw [convertToHyperswitchPayment_ok_lookup rt cfg r w "description" h (by decide),
      wireRequestBase_lookup_description]

/-- C21 (witness): the request without order id, under the test configuration. -/
theorem wire_optional_fields_witness :
    ∃ w, convertToHyperswitchPayment exampleRuntime testConfig noOrderRequest = .ok w ∧
      Entries.lookup w "return_url" = none ∧
      Entries.lookup w "webhook_url" =
        some (.string "http://localhost:8081/webhooks/hyperswitch") ∧
      Entries.lookup w "description" = some (.string "") := by
  have hw := convertToHyperswitchPayment_no_order exampleRuntime testConfig noOrderRequest rfl
  exact ⟨_, hw, wire_optional_fields exampleRuntime testConfig noOrderRequest _ hw⟩

/-! ## Refund request and refund response -/

/-- C24: for every refund request, the wire refund request holds `amount` exactly when
`req.Amount > 0`, and then the int64 value `req.Amount`; it holds `payment_id`, `reason`
and `metadata` with the request's values, and no other key. -/
theorem refundWireRequest_fields (req : RefundRequest) :
    Entries.lookup (refundWireRequest req) "amount" =
      (if req.Amount > 0 then some (.int64 req.Amount) else none) ∧
    Entries.lookup (refundWireRequest req) "payment_id" = some (.string req.PaymentID) ∧
    Entries.lookup (refundWireRequest req) "reason" = some (.string req.Reason) ∧
    Entries.lookup (refundWireRequest req) "metadata" = some (.map req.Metadata) ∧
    (∀ key, key ≠ "amount" → key ≠ "payment_id" → key ≠ "reason" → key ≠ "metadata" →
      Entries.lookup (refundWireRequest req) key = none) := by
  unfold refundWireRequest
  by_cases ha : req.Amount > 0
  · refine ⟨?_, ?_, ?_, ?_, ?_⟩
    · simp [ha, Entries.lookup_set_self]
    · simp [ha, Entries.lookup_set_ne, Entries.lookup]
    · simp [ha, Entries.lookup_set_ne, Entries.lookup]
    · simp [ha, Entries.lookup_set_ne, Entries.lookup]
    · intro key h1 h2 h3 h4
      simp only [ha, if_true]
      rw [Entries.lookup_set_ne _ _ _ _ (Ne.symm h1)]
      simp [Entries.lookup, Ne.symm h2, Ne.symm h3, Ne.symm h4]
  · refine ⟨?_, ?_, ?_, ?_, ?_⟩
    · simp [ha, Entries.lookup]
    · simp [ha, Entries.lookup]
    · simp [ha, Entries.lookup]
    · simp [ha, Entries.lookup]
    · intro key h1 h2 h3 h4
      simp [ha, Entries.lookup, Ne.symm h2, Ne.symm h3, Ne.symm h4]

/-- When the client accepts the wire refund request, the handler answers 201. -/
theorem CreateRefundHandler_created (rt : GoRuntime) (req : RefundRequest)
    (createRefund : Entries → Except String WireMap) (resp : WireMap)
    (h : createRefund (refundWireRequest req) = .ok resp) :
    (CreateRefundHandler rt createRefund (.ok req)).status = 201 := by
  simp [CreateRefundHandler, h]

/-- The partial refund of `testCreateRefund` carries its amount, and a zero amount is
left out. -/
theorem refundWireRequest_examples :
    Entries.lookup (refundWireRequest testRefundRequest) "amount" = some (.int64 500) ∧
    Entries.lookup (refundWireRequest { testRefundRequest with Amount := 0 }) "amount" = none := by
  exact ⟨rfl, rfl⟩

set_option maxRecDepth 100000 in
theorem asciiToUpper_ofNat_facts : ∀ n : Nat, n < 128 →
    isASCIIRune (asciiToUpper (Char.ofNat n)) = true ∧
    ¬ ('a' ≤ asciiToUpper (Char.ofNat n) ∧ asciiToUpper (Char.ofNat n) ≤ 'z') ∧
    asciiToLower (asciiToUpper (Char.ofNat n)) = asciiToLower (Char.ofNat n) := by
  decide

theorem toUpperRune_facts (rt : GoRuntime) (c : Char) (h : isASCIIRune c = true) :
    isASCIIRune (toUpperRune rt c) = true ∧
    ¬ ('a' ≤ toUpperRune rt c ∧ toUpperRune rt c ≤ 'z') ∧
    asciiToLower (toUpperRune rt c) = asciiToLower c := by
  have hn : c.toNat < 128 := by simpa [isASCIIRune] using h
  have key := asciiToUpper_ofNat_facts c.toNat hn
  rw [Char.ofNat_toNat] at key
  have hu : toUpperRune rt c = asciiToUpper c := by simp [toUpperRune, h]
  rw [hu]
  exact key

/-- The upper-cased form of an ASCII string is an upper-case code and differs from the
string only in letter case. -/
theorem toUpper_is_upper (rt : GoRuntime) (s : String) (h : isASCII s = true) :
    isUpperCode (toUpper rt s) = true ∧ sameUpToCase (toUpper rt s) s := by
  have hall : ∀ c ∈ s.data, isASCIIRune c = true := by
    unfold isASCII at h
    exact List.all_eq_true.mp h
  constructor
  · unfold isUpperCode toUpper
    rw [List.all_eq_true]
    intro c hc
    obtain ⟨d, hd, rfl⟩ := List.mem_map.mp hc
    have key := toUpperRune_facts rt d (hall d hd)
    simp [key.1, key.2.1]
  · unfold sameUpToCase toUpper
    simp only [List.map_map]
    apply List.map_congr_left
    intro c hc
    simpa using (toUpperRune_facts rt c (hall c hc)).2.2

/-- C26: for every wire refund response (with a runtime whose RFC 3339 parser rejects
the empty string, as `time.Parse` does), `convertFromHyperswitchRefund` gives `RefundID`,
`PaymentID`, `Status` and `Reason` as the strings the wire holds under `refund_id`,
`payment_id`, `status` and `reason`. `Amount` is the reference coercion cut to int64 of
the value under `amount`, the same value the payment translation gives. `Currency` is
the wire currency upper-cased: for an ASCII currency it is an upper-case code that
differs from the wire string only in letter case. `CreatedAt` and `UpdatedAt` are the
zero time when the value under `created` or `last_modified` is absent, not a string or
does not parse, and the parsed instant when it parses. So a response that echoes the
request's payment id comes back with the request's payment id. -/
theorem convertFromHyperswitchRefund_fields (rt : GoRuntime) (resp : WireMap)
    (req : RefundRequest) (hempty : rt.parseRFC3339 "" = none) :
    (∀ s, GoMap.lookup resp "refund_id" = some (.string s) →
      (convertFromHyperswitchRefund rt resp).RefundID = s) ∧
    (∀ s, GoMap.lookup resp "payment_id" = some (.string s) →
      (convertFromHyperswitchRefund rt resp).PaymentID = s) ∧
    (∀ s, GoMap.lookup resp "status" = some (.string s) →
      (convertFromHyperswitchRefund rt resp).Status = s) ∧
    (∀ s, GoMap.lookup resp "reason" = some (.string s) →
      (convertFromHyperswitchRefund rt resp).Reason = s) ∧
    (convertFromHyperswitchRefund rt resp).Amount =
      coercionInInt64 rt (GoMap.lookup resp "amount") ∧
    (convertFromHyperswitchRefund rt resp).Amount =
      (convertFromHyperswitchPayment rt resp "" "").Amount ∧
    (∀ s, GoMap.lookup resp "currency" = some (.string s) →
      (convertFromHyperswitchRefund rt resp).Currency = toUpper rt s ∧
      (isASCII s = true →
        isUpperCode (convertFromHyperswitchRefund rt resp).Currency = true ∧
        sameUpToCase (convertFromHyperswitchRefund rt resp).Currency s)) ∧
    (givesNoInstant rt (GoMap.lookup resp "created") →
      (convertFromHyperswitchRefund rt resp).CreatedAt = Time.zero) ∧
    (∀ s t, GoMap.lookup resp "created" = some (.string s) → rt.parseRFC3339 s = some t →
      (convertFromHyperswitchRefund rt resp).CreatedAt = t) ∧
    (givesNoInstant rt (GoMap.lookup resp "last_modified") →
      (convertFromHyperswitchRefund rt resp).UpdatedAt = Time.zero) ∧
    (∀ s t, GoMap.lookup resp "last_modified" = some (.string s) →
      rt.parseRFC3339 s = some t →
      (convertFromHyperswitchRefund rt resp).UpdatedAt = t) ∧
    (GoMap.lookup resp "payment_id" = some (.string req.PaymentID) →
      (convertFromHyperswitchRefund rt resp).PaymentID = req.PaymentID) := by
  have hp : ∀ s, GoMap.lookup resp "payment_id" = some (.string s) →
      (convertFromHyperswitchRefund rt resp).PaymentID = s := by
    intro s h
    show getString resp "payment_id" = s
    exact getString_of_string _ _ s h
  have hcur : ∀ s, GoMap.lookup resp "currency" = some (.string s) →
      (convertFromHyperswitchRefund rt resp).Currency = toUpper rt s := by
    intro s h
    show toUpper rt (getString resp "currency") = toUpper rt s
    rw [getString_of_string _ _ s h]
  have hamount : (convertFromHyperswitchRefund rt resp).Amount = getInt64 rt resp "amount" := rfl
  have hcoerce : getInt64 rt resp "amount" = coercionInInt64 rt (GoMap.lookup resp "amount") := by
    unfold getInt64 coercionInInt64
    cases GoMap.lookup resp "amount" with
    | none => rfl
    | some v =>
      cases v with
      | string s =>
        simp only [parseInt_eq]
        cases hd : decimalInteger s with
        | none => rfl
        | some n => by_cases hn : inInt64 n <;> simp [hn]
      | float64 f => rfl
      | _ => rfl
  refine ⟨?_, hp, ?_, ?_, ?_, ?_, ?_, ?_, ?_, ?_, ?_, hp req.PaymentID⟩
  · intro s h
    show getString resp "refund_id" = s
    exact getString_of_string _ _ s h
  · intro s h
    show getString resp "status" = s
    exact getString_of_string _ _ s h
  · intro s h
    show getString resp "reason" = s
    exact getString_of_string _ _ s h
  · rw [hamount, hcoerce]
  · rw [convertFromHyperswitchPayment_Amount]
    rfl
  · intro s h
    refine ⟨hcur s h, fun hascii => ?_⟩
    rw [hcur s h]
    exact toUpper_is_upper rt s hascii
  · intro h
    show parseTimestamp rt resp "created" Time.zero = Time.zero
    exact parseTimestamp_of_givesNoInstant rt resp "created" h
  · intro s t hv hpar
    show parseTimestamp rt resp "created" Time.zero = t
    exact parseTimestamp_of_parsed rt resp "created" s t hempty hv hpar
  · intro h
    show parseTimestamp rt resp "last_modified" Time.zero = Time.zero
    exact parseTimestamp_of_givesNoInstant rt resp "last_modified" h
  · intro s t hv hpar
    show parseTimestamp rt resp "last_modified" Time.zero = t
    exact parseTimestamp_of_parsed rt resp "last_modified" s t hempty hv hpar

/-- C26 (witness): the refund response of the mock: the payment id of the request comes
back, the JSON amount 500 comes back as 500, `usd` comes back as `USD`, the `created`
stamp is parsed and the missing `last_modified` gives the zero time. -/
theorem convertFromHyperswitchRefund_fields_witness :
    exampleRuntime.parseRFC3339 "" = none ∧
    (convertFromHyperswitchRefund exampleRuntime mockRefundResponse).RefundID = "re_1" ∧
    (convertFromHyperswitchRefund exampleRuntime mockRefundResponse).PaymentID =
      testRefundRequest.PaymentID ∧
    (convertFromHyperswitchRefund exampleRuntime mockRefundResponse).Amount = 500 ∧
    (convertFromHyperswitchRefund exampleRuntime mockRefundResponse).Currency = "USD" ∧
    isUpperCode (convertFromHyperswitchRefund exampleRuntime mockRefundResponse).Currency
      = true ∧
    (convertFromHyperswitchRefund exampleRuntime mockRefundResponse).CreatedAt =
      ⟨63839664000, 0, 0⟩ ∧
    (convertFromHyperswitchRefund exampleRuntime mockRefundResponse).UpdatedAt = Time.zero := by
  have key := convertFromHyperswitchRefund_fields exampleRuntime mockRefundResponse
    testRefundRequest (by decide)
  obtain ⟨k1, _, _, _, k5, _, k7, _, k9, k10, _, k12⟩ := key
  refine ⟨by decide, k1 "re_1" rfl, k12 rfl, ?_, ?_, ((k7 "usd" rfl).2 (by decide)).1,
    k9 "2024-01-01T00:00:00Z" ⟨63839664000, 0, 0⟩ rfl (by decide), k10 (by trivial)⟩
  · rw [k5]
    decide
  · rw [(k7 "usd" rfl).1]
    decide

/-- The refund response of the mock server for `testCreateRefund` echoes the payment
id. -/
theorem convertFromHyperswitchRefund_echo :
    (convertFromHyperswitchRefund exampleRuntime
      (.mk [("refund_id", .string "re_1"), ("payment_id", .string "test_payment_123"),
            ("amount", .float64 (.finite 500 0)), ("currency", .string "usd"),
            ("status", .string "succeeded")])).PaymentID = testRefundRequest.PaymentID := by
  decide

/-! ## Dispatch table -/

theorem dispatch_branch (eventType : String) (data : WireMap) :
    (dispatch eventType data).1 = expectedBranch eventType := by
  by_cases h1 : eventType = "payment_succeeded"
  · subst h1; rfl
  by_cases h2 : eventType = "payment_failed"
  · subst h2; rfl
  by_cases h3 : eventType = "refund_succeeded"
  · subst h3; rfl
  by_cases h4 : eventType = "refund_failed"
  · subst h4; rfl
  by_cases h5 : eventType = "dispute_opened"
  · subst h5; rfl
  have hd : (dispatch eventType data).1 = WebhookBranch.Unknown := by
    simp [dispatch, h1, h2, h3, h4, h5]
  rw [hd]
  unfold expectedBranch
  split <;> first | rfl | contradiction

/-- C27: for every configuration and every delivery that reaches dispatch, exactly one
branch runs, and it is the one the event type alone selects: the five known types select
their handlers and every other string selects the default branch. -/
theorem WebhookHandler_dispatch_table (cfg : Config) (req : WebhookRequest) (data : WireMap)
    (eventType : String) (hb : req.bound = some data)
    (he : GoMap.lookup data "event_type" = some (.string eventType)) :
    (WebhookHandler cfg req).dispatched = [expectedBranch eventType] := by
  rw [WebhookHandler_eq_processWebhook]
  simp [processWebhook, hb, GoMap.index, he, dispatch_branch]

/-- C27 (witness): the delivery of `testWebhookHandling` selects the payment-succeeded
handler, and a refund-failed delivery selects the refund-failed handler. -/
theorem WebhookHandler_dispatch_table_witness :
    (WebhookHandler testConfig (testWebhookDelivery "")).dispatched =
      [WebhookBranch.PaymentSucceeded] ∧
    (WebhookHandler testConfig (eventDelivery "refund_failed")).dispatched =
      [WebhookBranch.RefundFailed] :=
  ⟨WebhookHandler_dispatch_table testConfig (testWebhookDelivery "") testWebhookData
      "payment_succeeded" rfl rfl,
    WebhookHandler_dispatch_table testConfig (eventDelivery "refund_failed") _
      "refund_failed" rfl rfl⟩

/-! ## The payment bridge -/

/-- C28 (failing input): the amount 19.99 binds to the float64
`5626684784446013 * 2 ^ (-48)`, the nearest one; its float64 product with 100 is
`8791694975696895 * 2 ^ (-42)`, just below 1999, and the conversion to int64 cuts it to
1998, which the bridge forwards. -/
theorem bridge_forwards_1998_for_19_99 (rt : GoRuntime) :
    (100 * 5626684784446013 - 1999 * 2 ^ 48 : Int).natAbs < 50 ∧
    Float64.mul bridgeExample.Amount (.finite 100 0) = .finite 8791694975696895 (-42) ∧
    amountInCents rt bridgeExample = 1998 ∧
    (setupPaymentBridgeRoutes rt (some bridgeExample)).status = 200 ∧
    (setupPaymentBridgeRoutes rt (some bridgeExample)).body = .wire (bridgeExampleBody 1998) := by
  refine ⟨by decide, rfl, rfl, rfl, rfl⟩

/-! ## Metadata frame -/

/-- C29: for every request with an empty order id the translation returns a wire
request whose `metadata` is the caller-supplied map itself, with no reserved key added;
and a response that echoes this metadata translates, with empty fallbacks, to an empty
`UserID` whenever the caller's map holds no string under the reserved user key, whatever
the request's user id was. -/
theorem no_order_no_correlation (rt : GoRuntime) (cfg : Config) (r : PaymentRequest)
    (h : r.OrderID = "") :
    ∃ w, convertToHyperswitchPayment rt cfg r = .ok w ∧
      Entries.lookup w "metadata" = some (.map r.Metadata) ∧
      ∀ resp, GoMap.lookup resp "metadata" = Entries.lookup w "metadata" →
        (∀ s, GoMap.lookup r.Metadata "sunny_user_id" ≠ some (.string s)) →
        (convertFromHyperswitchPayment rt resp "" "").UserID = "" := by
  refine ⟨_, convertToHyperswitchPayment_no_order rt cfg r h,
    wireRequestBase_lookup_metadata rt cfg r, ?_⟩
  intro resp hresp hnone
  rw [wireRequestBase_lookup_metadata] at hresp
  rw [convertFromHyperswitchPayment_UserID]
  unfold storedCorrelation resolveCorrelation
  rw [hresp]
  cases hv : GoMap.lookup r.Metadata "sunny_user_id" with
  | none => simp
  | some v =>
    cases v with
    | string s => exact absurd hv (hnone s)
    | _ => simp

/-- C29 (witness): the scenario input without its order id; the user id `u1` does not
come back. -/
theorem no_order_no_correlation_witness :
    noOrderRequest.OrderID = "" ∧ noOrderRequest.UserID = "u1" ∧
    ∃ w, convertToHyperswitchPayment exampleRuntime testConfig noOrderRequest = .ok w ∧
      Entries.lookup w "metadata" = some (.map noOrderRequest.Metadata) ∧
      ∀ resp, GoMap.lookup resp "metadata" = Entries.lookup w "metadata" →
        (∀ s, GoMap.lookup noOrderRequest.Metadata "sunny_user_id" ≠ some (.string s)) →
        (convertFromHyperswitchPayment exampleRuntime resp "" "").UserID = "" :=
  ⟨rfl, rfl, no_order_no_correlation exampleRuntime testConfig noOrderRequest rfl⟩

/-- C30: for every request with an allocated metadata map the translation returns a
wire request whose metadata agrees with the caller's map on every key other than the two
reserved ones: each such caller key keeps its value, and no such key is added. -/
theorem caller_metadata_kept (rt : GoRuntime) (cfg : Config) (r : PaymentRequest)
    (es : Entries) (hm : r.Metadata = .mk es) :
    ∃ w md, convertToHyperswitchPayment rt cfg r = .ok w ∧
      wireMetadata w = some (.mk md) ∧
      ∀ key, key ≠ "sunny_order_id" → key ≠ "sunny_user_id" →
        Entries.lookup md key = Entries.lookup es key := by
  by_cases ho : r.OrderID = ""
  · refine ⟨_, es, convertToHyperswitchPayment_no_order rt cfg r ho, ?_, fun _ _ _ => rfl⟩
    simp [wireMetadata, Entries.index, wireRequestBase_lookup_metadata, hm]
  · refine ⟨_, Entries.set (Entries.set es "sunny_order_id" (.string r.OrderID))
      "sunny_user_id" (.string r.UserID),
      convertToHyperswitchPayment_allocated_metadata rt cfg r es ho hm, ?_, ?_⟩
    · simp [wireMetadata, Entries.index, Entries.lookup_set_self]
    · intro key h1 h2
      rw [Entries.lookup_set_ne _ _ _ _ (Ne.symm h2), Entries.lookup_set_ne _ _ _ _ (Ne.symm h1)]

/-- C30 (witness): the caller key `campaign` goes out unchanged next to the two reserved
keys. -/
theorem caller_metadata_kept_witness :
    campaignRequest.Metadata = .mk [("campaign", .string "spring")] ∧
    ∃ w md, convertToHyperswitchPayment exampleRuntime testConfig campaignRequest = .ok w ∧
      wireMetadata w = some (.mk md) ∧
      ∀ key, key ≠ "sunny_order_id" → key ≠ "sunny_user_id" →
        Entries.lookup md key = Entries.lookup [("campaign", .string "spring")] key :=
  ⟨rfl, caller_metadata_kept exampleRuntime testConfig campaignRequest _ rfl⟩

end Sunny
